import Mathlib

/-!
Shallow embedding of the zarr-python chunked-array storage engine sources:
  - src/zarr/core/metadata/v3.py  (v3 array metadata, fill-value parsing, JSON encoding)
  - src/zarr/config.py            (configuration, codec-pipeline class lookup)
  - src/zarr/v2/attrs.py          (attributes handle over a key-value store)
  - chunking_test.py              (sharding scenario; shard format modelled from the spec)

Machine floats are modelled symbolically: a scalar float value is either an exact
finite value (a rational), NaN, +Infinity or -Infinity.  All the behaviour the
verified properties depend on (NaN/Infinity special-casing, equality and isclose
comparisons, integer range checks) is represented exactly; rounding of finite
values into narrower float formats is not modelled, because every verified code
path only ever casts a value that is already a value of the target data type
(for which the numpy cast is the identity).
-/

namespace Zarr

/-- Python exception kinds raised by the embedded code. -/
inductive PyErr
  | valueError (msg : String)
  | typeError (msg : String)
  | keyError (msg : String)
  | overflowError (msg : String)
  | permissionError (msg : String)
  | badConfigError (msg : String)
deriving DecidableEq, Repr

/-- Symbolic value of a machine float: an exact finite value or a special. -/
inductive FloatVal
  | finite (q : ℚ)
  | nan
  | pinf
  | ninf
deriving DecidableEq, Repr

/-- Python float equality (`==`): NaN compares unequal to everything, including
itself; infinities compare equal to themselves. -/
def FloatVal.pyBeq : FloatVal → FloatVal → Bool
  | .finite a, .finite b => a = b
  | .pinf, .pinf => true
  | .ninf, .ninf => true
  | _, _ => false

/-- `np.isnan` on a float value. -/
def FloatVal.isnan : FloatVal → Bool
  | .nan => true
  | _ => false

/-- `np.isfinite` on a float value. -/
def FloatVal.isfinite : FloatVal → Bool
  | .finite _ => true
  | _ => false

/-- `np.isclose(a, b, equal_nan=True)` with the default tolerances
`rtol=1e-05`, `atol=1e-08`: `|a - b| <= atol + rtol * |b|` for finite values,
equal specials compare close, and two NaNs compare close (`equal_nan`). -/
def FloatVal.isclose : FloatVal → FloatVal → Bool
  | .finite a, .finite b => |a - b| ≤ 1 / 100000000 + (1 / 100000) * |b|
  | .nan, .nan => true
  | .pinf, .pinf => true
  | .ninf, .ninf => true
  | _, _ => false

/-- The v3 data types (`DataType` enum in v3.py); the enum value of each member
is its name. -/
inductive DataType
  | bool
  | int8
  | int16
  | int32
  | int64
  | uint8
  | uint16
  | uint32
  | uint64
  | float16
  | float32
  | float64
  | complex64
  | complex128
deriving DecidableEq, Repr

/-- `DataType.byte_count` (v3.py). -/
def DataType.byte_count : DataType → ℕ
  | .bool => 1
  | .int8 => 1
  | .int16 => 2
  | .int32 => 4
  | .int64 => 8
  | .uint8 => 1
  | .uint16 => 2
  | .uint32 => 4
  | .uint64 => 8
  | .float16 => 2
  | .float32 => 4
  | .float64 => 8
  | .complex64 => 8
  | .complex128 => 16

/-- `DataType.has_endianness` (v3.py): every multi-byte type. -/
def DataType.has_endianness (d : DataType) : Bool := d.byte_count ≠ 1

/-- The string value of each `DataType` enum member (its name). -/
def DataType.name : DataType → String
  | .bool => "bool"
  | .int8 => "int8"
  | .int16 => "int16"
  | .int32 => "int32"
  | .int64 => "int64"
  | .uint8 => "uint8"
  | .uint16 => "uint16"
  | .uint32 => "uint32"
  | .uint64 => "uint64"
  | .float16 => "float16"
  | .float32 => "float32"
  | .float64 => "float64"
  | .complex64 => "complex64"
  | .complex128 => "complex128"

/-- `DataType(value)` enum lookup by value, as used in
`ArrayV3Metadata.from_dict` (v3.py line 247). -/
def DataType.ofName : String → Option DataType
  | "bool" => some .bool
  | "int8" => some .int8
  | "int16" => some .int16
  | "int32" => some .int32
  | "int64" => some .int64
  | "uint8" => some .uint8
  | "uint16" => some .uint16
  | "uint32" => some .uint32
  | "uint64" => some .uint64
  | "float16" => some .float16
  | "float32" => some .float32
  | "float64" => some .float64
  | "complex64" => some .complex64
  | "complex128" => some .complex128
  | _ => none

/-- The numpy `dtype.kind` character of each data type
(b = boolean, i = signed, u = unsigned, f = float, c = complex). -/
def DataType.kind : DataType → Char
  | .bool => 'b'
  | .int8 => 'i'
  | .int16 => 'i'
  | .int32 => 'i'
  | .int64 => 'i'
  | .uint8 => 'u'
  | .uint16 => 'u'
  | .uint32 => 'u'
  | .uint64 => 'u'
  | .float16 => 'f'
  | .float32 => 'f'
  | .float64 => 'f'
  | .complex64 => 'c'
  | .complex128 => 'c'

/-- An integer or boolean data type. -/
def DataType.isIntOrBool (d : DataType) : Bool :=
  d.kind = 'b' ∨ d.kind = 'i' ∨ d.kind = 'u'

/-- Smallest value of an integer data type. -/
def DataType.intMin : DataType → ℤ
  | .int8 => -(2 ^ 7)
  | .int16 => -(2 ^ 15)
  | .int32 => -(2 ^ 31)
  | .int64 => -(2 ^ 63)
  | _ => 0

/-- Largest value of an integer (or boolean) data type. -/
def DataType.intMax : DataType → ℤ
  | .bool => 1
  | .int8 => 2 ^ 7 - 1
  | .int16 => 2 ^ 15 - 1
  | .int32 => 2 ^ 31 - 1
  | .int64 => 2 ^ 63 - 1
  | .uint8 => 2 ^ 8 - 1
  | .uint16 => 2 ^ 16 - 1
  | .uint32 => 2 ^ 32 - 1
  | .uint64 => 2 ^ 64 - 1
  | _ => 0

/-- An integer lies in the representable range of an integer data type. -/
def DataType.inRange (d : DataType) (n : ℤ) : Bool :=
  d.intMin ≤ n ∧ n ≤ d.intMax

/-- Modular wrap-around of an integer into the range of an integer data type,
as performed by numpy when converting an in-bounds Python int to a narrower
integer scalar type (the DeprecationWarning for this is suppressed in
`parse_fill_value`, v3.py lines 384-386). -/
def DataType.wrap (d : DataType) (n : ℤ) : ℤ :=
  ((n - d.intMin) % (d.intMax - d.intMin + 1)) + d.intMin

end Zarr

namespace Zarr

mutual

/-- A Python value as it appears in metadata documents: JSON values plus the
scalar kinds that occur before JSON encoding.  `pyFloat` is a Python `float`
(which includes `np.float64`, a `float` subclass); `npHalf` is an
`np.float16`/`np.float32` scalar (not a Python `float`); `complexVal` is a
Python or numpy complex scalar. -/
inductive PyVal
  | none
  | bool (b : Bool)
  | int (n : ℤ)
  | pyFloat (f : FloatVal)
  | npHalf (f : FloatVal)
  | complexVal (re im : FloatVal)
  | str (s : String)
  | arr (xs : PyList)
  | obj (kvs : PyObj)

/-- A Python list of values. -/
inductive PyList
  | nil
  | cons (hd : PyVal) (tl : PyList)

/-- A Python dict with string keys, as an ordered association list. -/
inductive PyObj
  | nil
  | cons (k : String) (v : PyVal) (tl : PyObj)

end

end Zarr

deriving instance DecidableEq for Zarr.PyVal
deriving instance DecidableEq for Zarr.PyList
deriving instance DecidableEq for Zarr.PyObj

namespace Zarr

mutual

/-- `_replace_special_floats` (v3.py lines 114-131): replaces NaN/Inf Python
floats with the strings "NaN" / "Infinity" / "-Infinity" and recurses into
dicts and lists; every other value (including numpy float16/float32 and
complex scalars, which are not Python floats) passes through unchanged. -/
def replaceSpecialFloats : PyVal → PyVal
  | .pyFloat .nan => .str ("NaN")
  | .pyFloat .pinf => .str ("Infinity")
  | .pyFloat .ninf => .str ("-Infinity")
  | .obj kvs => .obj (replaceSpecialFloatsObj kvs)
  | .arr xs => .arr (replaceSpecialFloatsList xs)
  | v => v

/-- `_replace_special_floats` mapped over a list. -/
def replaceSpecialFloatsList : PyList → PyList
  | .nil => .nil
  | .cons v tl => .cons (replaceSpecialFloats v) (replaceSpecialFloatsList tl)

/-- `_replace_special_floats` mapped over the values of a dict. -/
def replaceSpecialFloatsObj : PyObj → PyObj
  | .nil => .nil
  | .cons k v tl => .cons k (replaceSpecialFloats v) (replaceSpecialFloatsObj tl)

end

mutual

/-- The composite of `json.dumps(-, cls=V3JsonEncoder)` (v3.py lines 74-111,
232-234) and re-parsing the emitted text with `json.loads`, expressed on value
trees.  Python-native JSON values are emitted as themselves (Python's encoder
serializes `float` NaN/Infinity as the non-standard literals that `json.loads`
parses back to the same floats).  Non-native scalars go through
`V3JsonEncoder.default`: numpy float16/float32 scalars become their exact
Python-float value via `.item()`, with NaN/Inf intercepted and emitted as the
special strings (lines 98-101); complex scalars are emitted as the two-element
array `[out.real, out.imag]` (lines 94-97). -/
def jsonEncode : PyVal → PyVal
  | .npHalf .nan => .str ("NaN")
  | .npHalf .pinf => .str ("Infinity")
  | .npHalf .ninf => .str ("-Infinity")
  | .npHalf (.finite q) => .pyFloat (.finite q)
  | .complexVal re im => .arr (.cons (.pyFloat re) (.cons (.pyFloat im) .nil))
  | .obj kvs => .obj (jsonEncodeObj kvs)
  | .arr xs => .arr (jsonEncodeList xs)
  | v => v

/-- `jsonEncode` mapped over a list. -/
def jsonEncodeList : PyList → PyList
  | .nil => .nil
  | .cons v tl => .cons (jsonEncode v) (jsonEncodeList tl)

/-- `jsonEncode` mapped over the values of a dict. -/
def jsonEncodeObj : PyObj → PyObj
  | .nil => .nil
  | .cons k v tl => .cons k (jsonEncode v) (jsonEncodeObj tl)

end

mutual

/-- The serialization of special values as the specification states it: every
float value that is NaN is emitted as the JSON string "NaN", positive infinity
as "Infinity", negative infinity as "-Infinity", and every complex value as
the two-element JSON array of its real and imaginary parts; everything else is
kept, recursing through the whole document. -/
def specialFloatsSpec : PyVal → PyVal
  | .pyFloat .nan => .str ("NaN")
  | .pyFloat .pinf => .str ("Infinity")
  | .pyFloat .ninf => .str ("-Infinity")
  | .npHalf .nan => .str ("NaN")
  | .npHalf .pinf => .str ("Infinity")
  | .npHalf .ninf => .str ("-Infinity")
  | .npHalf (.finite q) => .pyFloat (.finite q)
  | .complexVal re im => .arr (.cons (.pyFloat re) (.cons (.pyFloat im) .nil))
  | .obj kvs => .obj (specialFloatsSpecObj kvs)
  | .arr xs => .arr (specialFloatsSpecList xs)
  | v => v

/-- `specialFloatsSpec` mapped over a list. -/
def specialFloatsSpecList : PyList → PyList
  | .nil => .nil
  | .cons v tl => .cons (specialFloatsSpec v) (specialFloatsSpecList tl)

/-- `specialFloatsSpec` mapped over the values of a dict. -/
def specialFloatsSpecObj : PyObj → PyObj
  | .nil => .nil
  | .cons k v tl => .cons k (specialFloatsSpec v) (specialFloatsSpecObj tl)

end

mutual

theorem jsonEncode_replace_eq_spec : ∀ v : PyVal,
    jsonEncode (replaceSpecialFloats v) = specialFloatsSpec v
  | .none => rfl
  | .bool _ => rfl
  | .int _ => rfl
  | .pyFloat .nan => rfl
  | .pyFloat .pinf => rfl
  | .pyFloat .ninf => rfl
  | .pyFloat (.finite _) => rfl
  | .npHalf .nan => rfl
  | .npHalf .pinf => rfl
  | .npHalf .ninf => rfl
  | .npHalf (.finite _) => rfl
  | .complexVal _ _ => rfl
  | .str _ => rfl
  | .arr xs => by
      simp only [replaceSpecialFloats, jsonEncode, specialFloatsSpec]
      exact congrArg PyVal.arr (jsonEncodeList_replace_eq_spec xs)
  | .obj kvs => by
      simp only [replaceSpecialFloats, jsonEncode, specialFloatsSpec]
      exact congrArg PyVal.obj (jsonEncodeObj_replace_eq_spec kvs)

theorem jsonEncodeList_replace_eq_spec : ∀ xs : PyList,
    jsonEncodeList (replaceSpecialFloatsList xs) = specialFloatsSpecList xs
  | .nil => rfl
  | .cons v tl => by
      simp only [replaceSpecialFloatsList, jsonEncodeList, specialFloatsSpecList]
      exact congrArg₂ PyList.cons (jsonEncode_replace_eq_spec v)
        (jsonEncodeList_replace_eq_spec tl)

theorem jsonEncodeObj_replace_eq_spec : ∀ kvs : PyObj,
    jsonEncodeObj (replaceSpecialFloatsObj kvs) = specialFloatsSpecObj kvs
  | .nil => rfl
  | .cons k v tl => by
      simp only [replaceSpecialFloatsObj, jsonEncodeObj, specialFloatsSpecObj]
      rw [jsonEncode_replace_eq_spec v, jsonEncodeObj_replace_eq_spec tl]

end

end Zarr

namespace Zarr

/-- Length of a Python list. -/
def PyList.length : PyList → ℕ
  | .nil => 0
  | .cons _ tl => tl.length + 1

/-- A numpy scalar: the result of casting a value to a data type. -/
inductive Scalar
  | bool (b : Bool)
  | int (n : ℤ)
  | float (f : FloatVal)
  | complex (re im : FloatVal)
deriving DecidableEq, Repr

/-- `dtype.type(0)` (v3.py line 361). -/
def zeroScalar : DataType → Scalar
  | .bool => .bool false
  | .float16 | .float32 | .float64 => .float (.finite 0)
  | .complex64 | .complex128 => .complex (.finite 0) (.finite 0)
  | _ => .int 0

/-- Truncation of a rational toward zero, as a C float-to-int cast does. -/
def ratTrunc (q : ℚ) : ℤ := q.num.tdiv (q.den : ℤ)

/-- Python truthiness of a float value (`bool(x)`): zero is falsy, every
other value including NaN and the infinities is truthy. -/
def FloatVal.truthy : FloatVal → Bool
  | .finite q => q ≠ 0
  | _ => true

/-- A numeric Python value viewed as a float value, the view Python's `==`
and `np.isclose` use when comparing numbers (bools count as 0/1). -/
def floatOfPy? : PyVal → Option FloatVal
  | .bool b => some (.finite (if b then 1 else 0))
  | .int n => some (.finite (n : ℚ))
  | .pyFloat f => some f
  | .npHalf f => some f
  | _ => Option.none

/-- `np.dtype(dtype).type(fill_value)` (v3.py line 386): the numpy scalar
constructor applied to a Python value.  Booleans take Python truthiness;
integer types wrap in-bounds integers modularly (the suppressed
DeprecationWarning path) and raise OverflowError outside the int64/uint64
conversion range; floats casts of NaN raise ValueError and of infinities
raise OverflowError; numeric strings are modelled for integer literals and
the special float strings "NaN"/"Infinity"/"-Infinity" only, every other
string raising ValueError; dicts raise TypeError. -/
def npCastBool : PyVal → Except PyErr Scalar
  | .bool b => .ok (.bool b)
  | .int n => .ok (.bool (n ≠ 0))
  | .pyFloat f => .ok (.bool f.truthy)
  | .npHalf f => .ok (.bool f.truthy)
  | .complexVal re im => .ok (.bool (re.truthy || im.truthy))
  | .str s => .ok (.bool (s ≠ ""))
  | _ => .error (.typeError ("argument cannot be converted"))

/-- Conversion of an integer into an integer data type: modular wrap-around
for values in the int64/uint64 conversion range, OverflowError outside it. -/
def npCastIntOfInt (dtype : DataType) (n : ℤ) : Except PyErr Scalar :=
  if -(2 ^ 63) ≤ n ∧ n < 2 ^ 64 then .ok (.int (dtype.wrap n))
  else .error (.overflowError ("Python int too large to convert"))

def npCastInt (dtype : DataType) : PyVal → Except PyErr Scalar
  | .bool b => .ok (.int (if b then 1 else 0))
  | .int n => npCastIntOfInt dtype n
  | .pyFloat .nan | .npHalf .nan =>
      .error (.valueError ("cannot convert float NaN to integer"))
  | .pyFloat .pinf | .npHalf .pinf | .pyFloat .ninf | .npHalf .ninf =>
      .error (.overflowError ("cannot convert float infinity to integer"))
  | .pyFloat (.finite q) | .npHalf (.finite q) => npCastIntOfInt dtype (ratTrunc q)
  | .str s =>
      match s.toInt? with
      | some n => npCastIntOfInt dtype n
      | Option.none => .error (.valueError ("invalid literal for int"))
  | .complexVal _ _ => .error (.typeError ("int argument must not be complex"))
  | _ => .error (.typeError ("argument cannot be converted"))

/-- Conversion of a string to a float value: the special strings, or an
integer literal (other numeric literals are not needed by the verified
code paths and are not modelled). -/
def strToFloat (s : String) : Except PyErr FloatVal :=
  if s = "NaN" then .ok .nan
  else if s = "Infinity" then .ok .pinf
  else if s = "-Infinity" then .ok .ninf
  else match s.toInt? with
  | some n => .ok (.finite (n : ℚ))
  | Option.none => .error (.valueError ("could not convert string to float"))

def npCastFloat : PyVal → Except PyErr Scalar
  | .bool b => .ok (.float (.finite (if b then 1 else 0)))
  | .int n => .ok (.float (.finite (n : ℚ)))
  | .pyFloat f => .ok (.float f)
  | .npHalf f => .ok (.float f)
  | .str s => (strToFloat s).map (fun f => .float f)
  | .complexVal _ _ => .error (.typeError ("float argument must not be complex"))
  | _ => .error (.typeError ("argument cannot be converted"))

def npCastComplex : PyVal → Except PyErr Scalar
  | .bool b => .ok (.complex (.finite (if b then 1 else 0)) (.finite 0))
  | .int n => .ok (.complex (.finite (n : ℚ)) (.finite 0))
  | .pyFloat f => .ok (.complex f (.finite 0))
  | .npHalf f => .ok (.complex f (.finite 0))
  | .str s => (strToFloat s).map (fun f => .complex f (.finite 0))
  | .complexVal re im => .ok (.complex re im)
  | _ => .error (.typeError ("argument cannot be converted"))

def npCast (fv : PyVal) (dtype : DataType) : Except PyErr Scalar :=
  if dtype.kind = 'b' then npCastBool fv
  else if dtype.kind = 'f' then npCastFloat fv
  else if dtype.kind = 'c' then npCastComplex fv
  else npCastInt dtype fv

/-- Python `fill_value == "some string"`: true only when the value is that
string (numbers never compare equal to strings). -/
def pyEqStr (fv : PyVal) (s : String) : Bool :=
  match fv with
  | .str t => t = s
  | _ => false

/-- `np.isnan(casted_value)` on a numpy scalar (bools and integers are cast
to float, so they are never NaN; a complex is NaN when either part is). -/
def Scalar.isnan : Scalar → Bool
  | .bool _ => false
  | .int _ => false
  | .float f => f.isnan
  | .complex re im => re.isnan || im.isnan

/-- `np.isfinite(casted_value)` on a numpy scalar. -/
def Scalar.isfinite : Scalar → Bool
  | .bool _ => true
  | .int _ => true
  | .float f => f.isfinite
  | .complex re im => re.isfinite && im.isfinite

/-- Python `fill_value == casted_value` between the original value and the
numpy scalar it was cast to.  Numbers compare by value with NaN unequal to
everything; complex values compare componentwise; strings never compare
equal to numpy numeric scalars. -/
def pyEqScalar (fv : PyVal) (s : Scalar) : Bool :=
  match floatOfPy? fv, fv, s with
  | some fx, _, .bool b => fx.pyBeq (.finite (if b then 1 else 0))
  | some fx, _, .int m => fx.pyBeq (.finite (m : ℚ))
  | some fx, _, .float g => fx.pyBeq g
  | some fx, _, .complex re im => fx.pyBeq re && im.pyBeq (.finite 0)
  | Option.none, .complexVal a b, .bool c => a.pyBeq (.finite (if c then 1 else 0)) && b.pyBeq (.finite 0)
  | Option.none, .complexVal a b, .int m => a.pyBeq (.finite (m : ℚ)) && b.pyBeq (.finite 0)
  | Option.none, .complexVal a b, .float g => a.pyBeq g && b.pyBeq (.finite 0)
  | Option.none, .complexVal a b, .complex re im => a.pyBeq re && b.pyBeq im
  | _, _, _ => false

/-- The float value of a numpy scalar of a float data type. -/
def Scalar.floatPart : Scalar → FloatVal
  | .float f => f
  | .bool b => .finite (if b then 1 else 0)
  | .int n => .finite (n : ℚ)
  | .complex re _ => re

/-- `complex(*fill_value)` on a two-element sequence (v3.py line 367):
both elements must be numeric; on a non-numeric element the TypeError
raised by `complex` propagates out of `parse_fill_value` uncaught -- it is
modelled here as an error result like the caught exceptions, since either
way the call raises. -/
def complexOfPair (a b : PyVal) : Except PyErr Scalar :=
  match floatOfPy? a, floatOfPy? b with
  | some re, some im => .ok (.complex re im)
  | _, _ => .error (.typeError ("complex() argument must be a number"))

/-- `parse_fill_value(fill_value, dtype)` (v3.py lines 336-404).
`None` parses to `dtype.type(0)`; a sequence is only accepted as the
two-element real/imaginary pair of a complex data type; otherwise the value
is cast to the data type (any ValueError/OverflowError/TypeError from the
cast is re-raised as ValueError), the special strings "NaN", "Infinity" and
"-Infinity" are accepted when the cast produced the matching special value,
float data types check `np.isclose(fill_value, casted_value, equal_nan=True)`
(a non-numeric operand makes `np.isclose` raise, uncaught -- modelled as an
error result), and every other data type requires exact equality. -/
def parse_fill_value (fill_value : PyVal) (dtype : DataType) : Except PyErr Scalar :=
  match fill_value with
  | .none => .ok (zeroScalar dtype)
  | .arr xs =>
      if dtype = .complex64 ∨ dtype = .complex128 then
        match xs with
        | .cons a (.cons b .nil) => complexOfPair a b
        | _ => .error (.valueError ("Got an invalid fill value for complex data type"))
      else .error (.typeError ("Cannot parse non-string sequence as a scalar"))
  | fv =>
      match npCast fv dtype with
      | .error _ => .error (.valueError ("fill value is not valid for dtype"))
      | .ok casted =>
          if pyEqStr fv ("NaN") && casted.isnan then .ok casted
          else if (pyEqStr fv ("Infinity") || pyEqStr fv ("-Infinity")) && !casted.isfinite then
            .ok casted
          else if dtype.kind = 'f' then
            match floatOfPy? fv with
            | some fx =>
                if fx.isclose casted.floatPart then .ok casted
                else .error (.valueError ("fill value is not valid for dtype"))
            | Option.none => .error (.typeError ("isclose does not support the operand"))
          else
            if pyEqScalar fv casted then .ok casted
            else .error (.valueError ("fill value is not valid for dtype"))

end Zarr

namespace Zarr

/-- The test C2 quantifies over: scalar inputs (bools, ints, floats of either
Python or numpy flavour, and strings), as opposed to None, sequences and
dicts. -/
def isScalarInput : PyVal → Bool
  | .bool _ => true
  | .int _ => true
  | .pyFloat _ => true
  | .npHalf _ => true
  | .str _ => true
  | _ => false

/-- The parse raised ValueError. -/
def isValueError : Except PyErr Scalar → Bool
  | .error (.valueError _) => true
  | _ => false

/-- Claim-side definition for C2: the unique value of the integer or boolean
data type `d` that compares exactly equal to the input, when one exists
(the input is exactly representable); `none` when the input is not exactly
representable in `d`. -/
def exactIntRep (fv : PyVal) (d : DataType) : Option Scalar :=
  match fv with
  | .bool b =>
      if d = .bool then some (.bool b) else some (.int (if b then 1 else 0))
  | .int n =>
      if d = .bool then
        if n = 0 then some (.bool false)
        else if n = 1 then some (.bool true)
        else Option.none
      else if d.inRange n then some (.int n) else Option.none
  | .pyFloat (.finite q) | .npHalf (.finite q) =>
      if q.den = 1 then
        if d = .bool then
          if q.num = 0 then some (.bool false)
          else if q.num = 1 then some (.bool true)
          else Option.none
        else if d.inRange q.num then some (.int q.num) else Option.none
      else Option.none
  | _ => Option.none

theorem DataType.wrap_eq_self_iff (d : DataType) (hd : d.kind = 'i' ∨ d.kind = 'u')
    (n : ℤ) : d.wrap n = n ↔ d.inRange n = true := by
  cases d <;>
    first
    | exact absurd hd (by decide)
    | · simp only [DataType.wrap, DataType.intMin, DataType.intMax, DataType.inRange,
          decide_eq_true_eq]
        norm_num
        omega

theorem Rat.eq_intCast_of_den_eq_one {q : ℚ} (h : q.den = 1) : q = (q.num : ℚ) := by
  conv_lhs => rw [← Rat.num_div_den q]
  rw [h]
  simp

theorem Rat.den_ne_one_ne_intCast {q : ℚ} (h : q.den ≠ 1) (k : ℤ) : q ≠ (k : ℚ) := by
  intro hq
  exact h (by rw [hq]; exact Rat.den_intCast k)

end Zarr

namespace Zarr

theorem kind_ne_b (d : DataType) (hd : d.kind = 'i' ∨ d.kind = 'u') : (d.kind = 'b') = False := by
  rcases hd with h | h <;> rw [h] <;> simp

theorem kind_ne_f (d : DataType) (hd : d.kind = 'i' ∨ d.kind = 'u') : (d.kind = 'f') = False := by
  rcases hd with h | h <;> rw [h] <;> simp

theorem kind_ne_c (d : DataType) (hd : d.kind = 'i' ∨ d.kind = 'u') : (d.kind = 'c') = False := by
  rcases hd with h | h <;> rw [h] <;> simp

theorem inRange_conv_bound (d : DataType) (hd : d.kind = 'i' ∨ d.kind = 'u') (n : ℤ)
    (h : d.inRange n = true) : -(2 ^ 63 : ℤ) ≤ n ∧ n < 2 ^ 64 := by
  cases d <;> first
    | exact absurd hd (by decide)
    | · simp only [DataType.inRange, DataType.intMin, DataType.intMax,
          decide_eq_true_eq] at h
        constructor <;> norm_num at h ⊢ <;> omega

theorem parse_fill_value_int_int (d : DataType) (hd : d.kind = 'i' ∨ d.kind = 'u') (n : ℤ) :
    parse_fill_value (.int n) d =
      if d.inRange n then .ok (.int n)
      else .error (.valueError ("fill value is not valid for dtype")) := by
  simp only [parse_fill_value, npCast, kind_ne_b d hd, kind_ne_f d hd, kind_ne_c d hd,
    if_false, npCastInt, npCastIntOfInt]
  by_cases hcv : -(2 ^ 63 : ℤ) ≤ n ∧ n < 2 ^ 64
  · rw [if_pos hcv]
    by_cases hr : d.inRange n = true
    · have hw := (DataType.wrap_eq_self_iff d hd n).mpr hr
      rw [if_pos hr]
      simp [pyEqStr, pyEqScalar, floatOfPy?, FloatVal.pyBeq, hw]
    · have hw : ¬d.wrap n = n := fun hh => hr ((DataType.wrap_eq_self_iff d hd n).mp hh)
      rw [if_neg hr]
      simp only [pyEqStr, pyEqScalar, floatOfPy?, FloatVal.pyBeq, kind_ne_f d hd]
      simp [hw]
      exact Ne.symm hw
  · rw [if_neg hcv, if_neg (fun hr => hcv (inRange_conv_bound d hd n hr))]

theorem parse_fill_value_int_bool (n : ℤ) :
    parse_fill_value (.int n) .bool =
      if n = 0 then .ok (.bool false)
      else if n = 1 then .ok (.bool true)
      else .error (.valueError ("fill value is not valid for dtype")) := by
  simp only [parse_fill_value, npCast, npCastBool, DataType.kind]
  by_cases h0 : n = 0
  · subst h0
    simp [pyEqStr, pyEqScalar, floatOfPy?, FloatVal.pyBeq]
  · by_cases h1 : n = 1
    · subst h1
      simp [pyEqStr, pyEqScalar, floatOfPy?, FloatVal.pyBeq]
    · rw [if_neg h0, if_neg h1]
      simp only [pyEqStr, pyEqScalar, floatOfPy?, FloatVal.pyBeq]
      simp [h0, Scalar.isnan, Scalar.isfinite]
      exact h1

theorem parse_fill_value_bool_int (d : DataType) (hd : d.kind = 'i' ∨ d.kind = 'u') (b : Bool) :
    parse_fill_value (.bool b) d = .ok (.int (if b then 1 else 0)) := by
  simp only [parse_fill_value, npCast, kind_ne_b d hd, kind_ne_f d hd, kind_ne_c d hd,
    if_false, npCastInt]
  cases b <;> simp [pyEqStr, pyEqScalar, floatOfPy?, FloatVal.pyBeq]

theorem parse_fill_value_bool_bool (b : Bool) :
    parse_fill_value (.bool b) .bool = .ok (.bool b) := by
  cases b <;> simp [parse_fill_value, npCast, npCastBool, DataType.kind, pyEqStr,
    pyEqScalar, floatOfPy?, FloatVal.pyBeq]

end Zarr


namespace Zarr

theorem ratTrunc_of_den_one {q : ℚ} (h : q.den = 1) : ratTrunc q = q.num := by
  simp [ratTrunc, h]

theorem parse_fill_value_float_int (d : DataType) (hd : d.kind = 'i' ∨ d.kind = 'u')
    (f : FloatVal) (fv : PyVal) (hfv : fv = .pyFloat f ∨ fv = .npHalf f) :
    parse_fill_value fv d =
      match f with
      | .finite q =>
          if q.den = 1 ∧ d.inRange q.num = true then .ok (.int q.num)
          else .error (.valueError ("fill value is not valid for dtype"))
      | _ => .error (.valueError ("fill value is not valid for dtype")) := by
  rcases hfv with rfl | rfl <;> cases f <;>
    simp only [parse_fill_value, npCast, kind_ne_b d hd, kind_ne_f d hd, kind_ne_c d hd,
      if_false, npCastInt, npCastIntOfInt]
  case finite q | finite q =>
    by_cases hden : q.den = 1
    · have hq : q = (q.num : ℚ) := Rat.eq_intCast_of_den_eq_one hden
      rw [ratTrunc_of_den_one hden]
      by_cases hcv : -(2 ^ 63 : ℤ) ≤ q.num ∧ q.num < 2 ^ 64
      · rw [if_pos hcv]
        by_cases hr : d.inRange q.num = true
        · have hw := (DataType.wrap_eq_self_iff d hd q.num).mpr hr
          rw [if_pos ⟨hden, hr⟩]
          simp only [hw]
          simp [pyEqStr, pyEqScalar, floatOfPy?, FloatVal.pyBeq, Scalar.isnan,
            Scalar.isfinite, ← hq]
        · have hw : ¬d.wrap q.num = q.num :=
            fun hh => hr ((DataType.wrap_eq_self_iff d hd q.num).mp hh)
          rw [if_neg (fun hh : q.den = 1 ∧ d.inRange q.num = true => hr hh.2)]
          simp only [pyEqStr, pyEqScalar, floatOfPy?, FloatVal.pyBeq]
          simp [Scalar.isnan, Scalar.isfinite]
          intro hh
          rw [hq] at hh
          exact absurd (Int.cast_injective hh).symm hw
      · rw [if_neg hcv,
          if_neg (fun hh : q.den = 1 ∧ d.inRange q.num = true =>
            hcv (inRange_conv_bound d hd q.num hh.2))]
    · by_cases hcv : -(2 ^ 63 : ℤ) ≤ ratTrunc q ∧ ratTrunc q < 2 ^ 64
      · rw [if_pos hcv, if_neg (fun hh : q.den = 1 ∧ d.inRange q.num = true => hden hh.1)]
        have hne : q ≠ ((d.wrap (ratTrunc q) : ℤ) : ℚ) :=
          Rat.den_ne_one_ne_intCast hden _
        simp only [pyEqStr, pyEqScalar, floatOfPy?, FloatVal.pyBeq]
        simp [Scalar.isnan, Scalar.isfinite]
        exact hne
      · rw [if_neg hcv, if_neg (fun hh : q.den = 1 ∧ d.inRange q.num = true => hden hh.1)]

end Zarr

namespace Zarr

theorem parse_fill_value_float_bool (f : FloatVal) (fv : PyVal)
    (hfv : fv = .pyFloat f ∨ fv = .npHalf f) :
    parse_fill_value fv .bool =
      if f = .finite 0 then .ok (.bool false)
      else if f = .finite 1 then .ok (.bool true)
      else .error (.valueError ("fill value is not valid for dtype")) := by
  rcases hfv with rfl | rfl <;> cases f <;>
    simp only [parse_fill_value, npCast, npCastBool, DataType.kind]
  all_goals
    try (simp [pyEqStr, pyEqScalar, floatOfPy?, FloatVal.pyBeq, FloatVal.truthy,
      Scalar.isnan, Scalar.isfinite]; done)
  all_goals
    rename_i q
    by_cases h0 : q = 0
    · subst h0
      simp [pyEqStr, pyEqScalar, floatOfPy?, FloatVal.pyBeq, FloatVal.truthy]
    · by_cases h1 : q = 1
      · subst h1
        simp [pyEqStr, pyEqScalar, floatOfPy?, FloatVal.pyBeq, FloatVal.truthy]
      · simp [pyEqStr, pyEqScalar, floatOfPy?, FloatVal.pyBeq, FloatVal.truthy, h0, h1,
          Scalar.isnan, Scalar.isfinite]

theorem parse_fill_value_str_intbool (d : DataType) (hd : d.isIntOrBool = true) (s : String) :
    isValueError (parse_fill_value (.str s) d) = true := by
  have hk : d.kind = 'b' ∨ d.kind = 'i' ∨ d.kind = 'u' := by
    simpa [DataType.isIntOrBool] using hd
  rcases hk with hb | hiu
  · have hdb : d = .bool := by cases d <;> first | rfl | simp [DataType.kind] at hb
    subst hdb
    simp [parse_fill_value, npCast, npCastBool, DataType.kind, pyEqStr, pyEqScalar,
      floatOfPy?, Scalar.isnan, Scalar.isfinite, isValueError]
  · simp only [parse_fill_value, npCast, kind_ne_b d hiu, kind_ne_f d hiu, kind_ne_c d hiu,
      if_false, npCastInt]
    cases hto : s.toInt? with
    | none => simp [isValueError]
    | some n =>
      simp only [npCastIntOfInt]
      by_cases hcv : -(2 ^ 63 : ℤ) ≤ n ∧ n < 2 ^ 64
      · rw [if_pos hcv]
        simp [pyEqStr, pyEqScalar, floatOfPy?, Scalar.isnan, Scalar.isfinite, isValueError]
      · rw [if_neg hcv]
        simp [isValueError]

end Zarr

namespace Zarr

theorem kind_b_eq_bool (d : DataType) (hb : d.kind = 'b') : d = .bool := by
  cases d <;> first | rfl | simp [DataType.kind] at hb

theorem kind_iu_ne_bool (d : DataType) (hiu : d.kind = 'i' ∨ d.kind = 'u') : ¬d = .bool := by
  intro h
  subst h
  simp [DataType.kind] at hiu

theorem rat_eq_zero_iff (q : ℚ) : q = 0 ↔ q.den = 1 ∧ q.num = 0 := by
  constructor
  · intro h; subst h; exact ⟨rfl, rfl⟩
  · intro ⟨_, h⟩; exact Rat.zero_iff_num_zero.mpr h

theorem rat_eq_one_iff (q : ℚ) : q = 1 ↔ q.den = 1 ∧ q.num = 1 := by
  constructor
  · intro h; subst h; exact ⟨rfl, rfl⟩
  · intro ⟨hd, hn⟩
    rw [Rat.eq_intCast_of_den_eq_one hd, hn]
    norm_num

theorem exactIntRep_float_bool (q : ℚ) (fv : PyVal)
    (hfv : fv = .pyFloat (.finite q) ∨ fv = .npHalf (.finite q)) :
    exactIntRep fv .bool =
      if q = 0 then some (.bool false)
      else if q = 1 then some (.bool true)
      else Option.none := by
  rcases hfv with rfl | rfl <;>
  · simp only [exactIntRep, if_pos rfl]
    by_cases h0 : q = 0
    · subst h0
      norm_num
    · by_cases h1 : q = 1
      · subst h1
        norm_num
      · rw [if_neg h0, if_neg h1]
        by_cases hden : q.den = 1
        · have hn0 : ¬q.num = 0 := fun h => h0 ((rat_eq_zero_iff q).mpr ⟨hden, h⟩)
          have hn1 : ¬q.num = 1 := fun h => h1 ((rat_eq_one_iff q).mpr ⟨hden, h⟩)
          simp [hden, hn0, hn1]
        · simp [hden]

/-- C2: for every integer or boolean data type `d` and every scalar input
`x`, `parse_fill_value(x, d)` succeeds and returns the value of `d` exactly
equal to `x` precisely when `x` is exactly representable in `d`, and raises
ValueError otherwise. -/
theorem C2_parse_fill_value_exact (d : DataType) (x : PyVal)
    (hd : d.isIntOrBool = true) (hx : isScalarInput x = true) :
    (∀ s, exactIntRep x d = some s → parse_fill_value x d = .ok s) ∧
    (exactIntRep x d = Option.none → isValueError (parse_fill_value x d) = true) := by
  have hk : d.kind = 'b' ∨ (d.kind = 'i' ∨ d.kind = 'u') := by
    simpa [DataType.isIntOrBool] using hd
  rcases hk with hb | hiu
  · have hdb := kind_b_eq_bool d hb
    subst hdb
    cases x <;> simp [isScalarInput] at hx
    case bool b =>
      refine ⟨fun s hs => ?_, fun hnone => by simp [exactIntRep] at hnone⟩
      simp [exactIntRep] at hs
      subst hs
      rw [parse_fill_value_bool_bool b]
    case int n =>
      constructor
      · intro s hs
        simp only [exactIntRep, if_pos rfl] at hs
        rw [parse_fill_value_int_bool n]
        split_ifs at hs ⊢ <;> simp_all
      · intro hnone
        simp only [exactIntRep, if_pos rfl] at hnone
        rw [parse_fill_value_int_bool n]
        split_ifs at hnone ⊢ <;> simp_all [isValueError]
    case pyFloat f =>
      cases f
      case finite q =>
        rw [parse_fill_value_float_bool (.finite q) _ (Or.inl rfl),
          exactIntRep_float_bool q _ (Or.inl rfl)]
        constructor
        · intro s hs
          split_ifs at hs ⊢ <;> simp_all
        · intro hnone
          split_ifs at hnone ⊢ <;> simp_all [isValueError]
      case nan =>
        rw [parse_fill_value_float_bool .nan _ (Or.inl rfl)]
        exact ⟨fun s hs => by simp [exactIntRep] at hs, fun _ => by simp [isValueError]⟩
      case pinf =>
        rw [parse_fill_value_float_bool .pinf _ (Or.inl rfl)]
        exact ⟨fun s hs => by simp [exactIntRep] at hs, fun _ => by simp [isValueError]⟩
      case ninf =>
        rw [parse_fill_value_float_bool .ninf _ (Or.inl rfl)]
        exact ⟨fun s hs => by simp [exactIntRep] at hs, fun _ => by simp [isValueError]⟩
    case npHalf f =>
      cases f
      case finite q =>
        rw [parse_fill_value_float_bool (.finite q) _ (Or.inr rfl),
          exactIntRep_float_bool q _ (Or.inr rfl)]
        constructor
        · intro s hs
          split_ifs at hs ⊢ <;> simp_all
        · intro hnone
          split_ifs at hnone ⊢ <;> simp_all [isValueError]
      case nan =>
        rw [parse_fill_value_float_bool .nan _ (Or.inr rfl)]
        exact ⟨fun s hs => by simp [exactIntRep] at hs, fun _ => by simp [isValueError]⟩
      case pinf =>
        rw [parse_fill_value_float_bool .pinf _ (Or.inr rfl)]
        exact ⟨fun s hs => by simp [exactIntRep] at hs, fun _ => by simp [isValueError]⟩
      case ninf =>
        rw [parse_fill_value_float_bool .ninf _ (Or.inr rfl)]
        exact ⟨fun s hs => by simp [exactIntRep] at hs, fun _ => by simp [isValueError]⟩
    case str s =>
      exact ⟨fun t ht => by simp [exactIntRep] at ht,
        fun _ => parse_fill_value_str_intbool _ (by decide) s⟩
  · have hne := kind_iu_ne_bool d hiu
    cases x <;> simp [isScalarInput] at hx
    case bool b =>
      refine ⟨fun s hs => ?_, fun hnone => by simp [exactIntRep, if_neg hne] at hnone⟩
      simp only [exactIntRep, if_neg hne, Option.some.injEq] at hs
      rw [parse_fill_value_bool_int d hiu b, hs]
    case int n =>
      constructor
      · intro s hs
        simp only [exactIntRep, if_neg hne] at hs
        rw [parse_fill_value_int_int d hiu n]
        split_ifs at hs ⊢ <;> simp_all
      · intro hnone
        simp only [exactIntRep, if_neg hne] at hnone
        rw [parse_fill_value_int_int d hiu n]
        split_ifs at hnone ⊢ <;> simp_all [isValueError]
    case pyFloat f =>
      rw [parse_fill_value_float_int d hiu f _ (Or.inl rfl)]
      cases f
      case finite q =>
        simp only [exactIntRep, if_neg hne]
        constructor
        · intro s hs
          split_ifs at hs ⊢ <;> simp_all
        · intro hnone
          split_ifs at hnone ⊢ <;> simp_all [isValueError]
      case nan =>
        exact ⟨fun s hs => by simp [exactIntRep] at hs, fun _ => by simp [isValueError]⟩
      case pinf =>
        exact ⟨fun s hs => by simp [exactIntRep] at hs, fun _ => by simp [isValueError]⟩
      case ninf =>
        exact ⟨fun s hs => by simp [exactIntRep] at hs, fun _ => by simp [isValueError]⟩
    case npHalf f =>
      rw [parse_fill_value_float_int d hiu f _ (Or.inr rfl)]
      cases f
      case finite q =>
        simp only [exactIntRep, if_neg hne]
        constructor
        · intro s hs
          split_ifs at hs ⊢ <;> simp_all
        · intro hnone
          split_ifs at hnone ⊢ <;> simp_all [isValueError]
      case nan =>
        exact ⟨fun s hs => by simp [exactIntRep] at hs, fun _ => by simp [isValueError]⟩
      case pinf =>
        exact ⟨fun s hs => by simp [exactIntRep] at hs, fun _ => by simp [isValueError]⟩
      case ninf =>
        exact ⟨fun s hs => by simp [exactIntRep] at hs, fun _ => by simp [isValueError]⟩
    case str s =>
      exact ⟨fun t ht => by simp [exactIntRep] at ht,
        fun _ => parse_fill_value_str_intbool _ (by simp [DataType.isIntOrBool]; tauto) s⟩

/-- Witness for C2: concrete instances of the theorem -- the in-range
integer 5 parses into int8 as itself; the out-of-range integer 300 is
rejected with ValueError. -/
theorem C2_parse_fill_value_exact_witness :
    DataType.int8.isIntOrBool = true ∧ isScalarInput (.int 300) = true ∧
    isValueError (parse_fill_value (.int 300) .int8) = true ∧
    parse_fill_value (.int 5) .int8 = .ok (.int 5) :=
  ⟨rfl, rfl, (C2_parse_fill_value_exact .int8 (.int 300) rfl rfl).2 rfl,
    (C2_parse_fill_value_exact .int8 (.int 5) rfl rfl).1 (.int 5) rfl⟩

end Zarr

namespace Zarr

/-- C3: in the serialization of v3 metadata to the zarr.json document
(`to_buffer_dict` runs `_replace_special_floats` and then
`json.dumps(-, cls=V3JsonEncoder)`), every float value that is NaN is
emitted as the JSON string "NaN", positive infinity as "Infinity", negative
infinity as "-Infinity", and every complex value as the two-element JSON
array of its real and imaginary parts, at every position of the document. -/
theorem C3_special_float_replacement (v : PyVal) :
    jsonEncode (replaceSpecialFloats v) = specialFloatsSpec v :=
  jsonEncode_replace_eq_spec v

end Zarr

namespace Zarr

/-- Modelled from the spec: the regular chunk grid (zarr/core/chunk_grids.py
is not part of the sources) -- a `chunk_shape` of one entry per dimension,
each at least 1. -/
structure RegularChunkGrid where
  chunk_shape : List ℕ
deriving DecidableEq, Repr

/-- Modelled from the spec: the chunk key encoding
(zarr/core/chunk_key_encodings.py is not part of the sources) -- a name
(default or v2) plus a separator character. -/
structure ChunkKeyEncoding where
  name : String
  separator : String
deriving DecidableEq, Repr

/-- The `ArrayV3Metadata` dataclass (v3.py lines 134-145), with the fields in
declaration order.  Codec instances are modelled by their named-configuration
dicts (the codec classes are not part of the sources; the spec describes a
codec as a name plus configuration). -/
structure ArrayV3Metadata where
  shape : List ℕ
  data_type : DataType
  chunk_grid : RegularChunkGrid
  chunk_key_encoding : ChunkKeyEncoding
  fill_value : Scalar
  codecs : PyList
  attributes : PyObj
  dimension_names : Option (List (Option String))
deriving DecidableEq

/-- A list of non-negative integers as a Python list of ints. -/
def natListToPy : List ℕ → PyList
  | [] => .nil
  | n :: tl => .cons (.int (n : ℤ)) (natListToPy tl)

/-- A dimension-names tuple as a Python list of strings and Nones. -/
def dimsToPy : List (Option String) → PyList
  | [] => .nil
  | some s :: tl => .cons (.str s) (dimsToPy tl)
  | Option.none :: tl => .cons .none (dimsToPy tl)

/-- The numpy scalar `fill_value` as the Python object stored in the
metadata dict: float64 scalars are Python floats, float16/float32 scalars
are numpy-only scalars, complex scalars are complex objects. -/
def Scalar.toPy (d : DataType) : Scalar → PyVal
  | .bool b => .bool b
  | .int n => .int n
  | .float f => if d = .float64 then .pyFloat f else .npHalf f
  | .complex re im => .complexVal re im

/-- Modelled from the spec: serialization of the regular chunk grid to its
named-configuration dict with the chunk_shape. -/
def RegularChunkGrid.to_dict (g : RegularChunkGrid) : PyVal :=
  .obj (.cons ("name") (.str ("regular"))
    (.cons ("configuration")
      (.obj (.cons ("chunk_shape") (.arr (natListToPy g.chunk_shape)) .nil)) .nil))

/-- Modelled from the spec: serialization of the chunk key encoding to its
named-configuration dict with the separator. -/
def ChunkKeyEncoding.to_dict (e : ChunkKeyEncoding) : PyVal :=
  .obj (.cons ("name") (.str e.name)
    (.cons ("configuration")
      (.obj (.cons ("separator") (.str e.separator) .nil)) .nil))

/-- The trailing fixed fields of the metadata dict (`zarr_format` and
`node_type` are dataclass fields declared after `dimension_names`). -/
def metaTailFields : PyObj :=
  .cons ("zarr_format") (.int 3) (.cons ("node_type") (.str ("array")) .nil)

/-- `ArrayV3Metadata.to_dict` (v3.py lines 255-265).  The base serialization
of the dataclass fields (zarr/core/metadata/common.py is not part of the
sources) is Modelled from the spec: every field in declaration order, with
`attributes` omitted when empty; the v3 override then pops
`dimension_names` when it is None (lines 261-264). -/
def ArrayV3Metadata.to_dict (m : ArrayV3Metadata) : PyObj :=
  .cons ("shape") (.arr (natListToPy m.shape))
    (.cons ("data_type") (.str m.data_type.name)
      (.cons ("chunk_grid") m.chunk_grid.to_dict
        (.cons ("chunk_key_encoding") m.chunk_key_encoding.to_dict
          (.cons ("fill_value") (m.fill_value.toPy m.data_type)
            (.cons ("codecs") (.arr m.codecs)
              (let tail :=
                match m.dimension_names with
                | Option.none => metaTailFields
                | some ds => .cons ("dimension_names") (.arr (dimsToPy ds)) metaTailFields
              if m.attributes = .nil then tail
              else .cons ("attributes") (.obj m.attributes) tail))))))

/-- `dict.pop(key)` on an ordered dict: the value and the dict without that
entry, or nothing when the key is absent. -/
def PyObj.pop? : PyObj → String → Option (PyVal × PyObj)
  | .nil, _ => Option.none
  | .cons k v tl, key =>
      if k = key then some (v, tl)
      else (tl.pop? key).map (fun r => (r.1, .cons k v r.2))

/-- `dict.pop(key, default)`. -/
def PyObj.popOr (o : PyObj) (key : String) (dflt : PyVal) : PyVal × PyObj :=
  match o.pop? key with
  | some r => r
  | Option.none => (dflt, o)

/-- `dict[key]` lookup. -/
def PyObj.lookup? : PyObj → String → Option PyVal
  | .nil, _ => Option.none
  | .cons k v tl, key => if k = key then some v else tl.lookup? key

/-- `parse_zarr_format` (v3.py lines 34-37). -/
def parse_zarr_format (v : PyVal) : Except PyErr Unit :=
  if v = .int 3 then .ok () else .error (.valueError ("Invalid value. Expected 3."))

/-- `parse_node_type_array` (v3.py lines 40-43). -/
def parse_node_type_array (v : PyVal) : Except PyErr Unit :=
  if v = .str ("array") then .ok ()
  else .error (.valueError ("Invalid value. Expected array."))

/-- Modelled from the spec: `parse_shapelike` (zarr/core/common.py is not
part of the sources) -- the shape is an ordered tuple of non-negative
integers. -/
def parse_shapelike_core : List ℤ → Except PyErr (List ℕ)
  | [] => .ok []
  | n :: tl =>
      if h : 0 ≤ n then (parse_shapelike_core tl).map (fun l => n.toNat :: l)
      else .error (.valueError ("Expected all values to be non-negative."))

/-- Elements of a Python list as integers (TypeError on a non-int). -/
def intsOfPyList : PyList → Except PyErr (List ℤ)
  | .nil => .ok []
  | .cons (.int n) tl => (intsOfPyList tl).map (fun l => n :: l)
  | .cons _ _ => .error (.typeError ("Expected an integer."))

/-- `parse_shapelike` applied to a JSON value. -/
def parse_shapelike (v : PyVal) : Except PyErr (List ℕ) :=
  match v with
  | .arr xs => do parse_shapelike_core (← intsOfPyList xs)
  | _ => .error (.typeError ("Expected an iterable of integers."))

/-- `parse_dtype` (v3.py lines 493-504) restricted to the wire names the
documents contain: the name must be a valid v3 data type name. -/
def parse_dtype (v : PyVal) : Except PyErr DataType :=
  match v with
  | .str s =>
      match DataType.ofName s with
      | some d => .ok d
      | Option.none => .error (.valueError ("Invalid V3 data_type"))
  | _ => .error (.valueError ("Invalid V3 data_type"))

/-- Modelled from the spec: chunk shapes have every dimension at least 1. -/
def parse_chunkshape_core : List ℤ → Except PyErr (List ℕ)
  | [] => .ok []
  | n :: tl =>
      if h : 1 ≤ n then (parse_chunkshape_core tl).map (fun l => n.toNat :: l)
      else .error (.valueError ("Expected all values to be positive."))

/-- Modelled from the spec: `ChunkGrid.from_dict` for the regular grid
(zarr/core/chunk_grids.py is not part of the sources) -- a
named-configuration dict with name "regular" and a chunk_shape. -/
def RegularChunkGrid.from_dict (v : PyVal) : Except PyErr RegularChunkGrid :=
  match v with
  | .obj o =>
      if o.lookup? ("name") = some (.str ("regular")) then
        match o.lookup? ("configuration") with
        | some (.obj c) =>
            match c.lookup? ("chunk_shape") with
            | some (.arr xs) => do
                let cs ← parse_chunkshape_core (← intsOfPyList xs)
                .ok ⟨cs⟩
            | _ => .error (.typeError ("Expected a chunk_shape."))
        | _ => .error (.typeError ("Expected a configuration."))
      else .error (.valueError ("Unknown chunk grid."))
  | _ => .error (.typeError ("Expected dict."))

/-- Modelled from the spec: `ChunkKeyEncoding.from_dict`
(zarr/core/chunk_key_encodings.py is not part of the sources) -- a
named-configuration dict with name "default" or "v2" and a separator that
is "/" or ".". -/
def ChunkKeyEncoding.from_dict (v : PyVal) : Except PyErr ChunkKeyEncoding :=
  match v with
  | .obj o =>
      match o.lookup? ("name") with
      | some (.str nm) =>
          if nm = "default" ∨ nm = "v2" then
            match o.lookup? ("configuration") with
            | some (.obj c) =>
                match c.lookup? ("separator") with
                | some (.str sep) =>
                    if sep = "/" ∨ sep = "." then .ok ⟨nm, sep⟩
                    else .error (.valueError ("Unknown separator."))
                | _ => .error (.typeError ("Expected a separator."))
            | _ => .error (.typeError ("Expected a configuration."))
          else .error (.valueError ("Unknown chunk key encoding."))
      | _ => .error (.typeError ("Expected a name."))
  | _ => .error (.typeError ("Expected dict."))

/-- Elements of a dimension-names list: strings or None
(`parse_dimension_names`, v3.py lines 64-71). -/
def dimsOfPyList : PyList → Except PyErr (List (Option String))
  | .nil => .ok []
  | .cons (.str s) tl => (dimsOfPyList tl).map (fun l => some s :: l)
  | .cons .none tl => (dimsOfPyList tl).map (fun l => Option.none :: l)
  | .cons _ _ => .error (.typeError ("Expected either None or a iterable of str"))

/-- `parse_dimension_names` (v3.py lines 64-71). -/
def parse_dimension_names (v : PyVal) :
    Except PyErr (Option (List (Option String))) :=
  match v with
  | .none => .ok Option.none
  | .arr xs => (dimsOfPyList xs).map some
  | _ => .error (.typeError ("Expected either None or a iterable of str"))

/-- Modelled from the spec: `parse_attributes` (zarr/core/metadata/common.py
is not part of the sources) -- attributes are an opaque mapping, with an
absent value normalized to the empty mapping. -/
def parse_attributes (v : PyVal) : Except PyErr PyObj :=
  match v with
  | .none => .ok .nil
  | .obj o => .ok o
  | _ => .error (.typeError ("Expected dict."))

/-- A codec element is a named-configuration dict
(`parse_named_configuration` requires a "name"; zarr/core/common.py is not
part of the sources, the form is Modelled from the spec). -/
def codecOk (c : PyVal) : Bool :=
  match c with
  | .obj o =>
      match o.lookup? ("name") with
      | some (.str _) => true
      | _ => false
  | _ => false

/-- The elements of a codec list, each checked to be a named-configuration
dict; the codec object built by `get_codec_class(name).from_dict(c)` is
modelled by the dict itself. -/
def codecsOfList : PyList → Except PyErr PyList
  | .nil => .ok .nil
  | .cons c tl =>
      if codecOk c then (codecsOfList tl).map (fun l => .cons c l)
      else .error (.typeError ("Expected a named configuration."))

/-- `parse_codecs` (v3.py lines 46-61) on a JSON value. -/
def parse_codecs (v : PyVal) : Except PyErr PyList :=
  match v with
  | .arr xs => codecsOfList xs
  | _ => .error (.typeError ("Expected iterable"))

/-- `_validate_metadata` (v3.py lines 191-205): the chunk grid and the
dimension names must have as many dimensions as the shape.  The
`fill_value is None` check cannot fire after `parse_fill_value`, and
per-codec validation against the array is outside the sources and modelled
as always passing. -/
def validate_metadata (shape chunk_shape : List ℕ)
    (dims : Option (List (Option String))) : Except PyErr Unit :=
  if shape.length ≠ chunk_shape.length then
    .error (.valueError ("chunk_shape and shape need the same number of dimensions."))
  else
    match dims with
    | some ds =>
        if shape.length ≠ ds.length then
          .error (.valueError ("dimension_names and shape need the same number of dimensions."))
        else .ok ()
    | Option.none => .ok ()

/-- The `ArrayV3Metadata.__init__` body (v3.py lines 147-189) on the raw
keyword arguments as they arrive from `from_dict`: each argument is parsed
in source order, then `_validate_metadata` runs.  `evolve_from_array_spec`
on the parsed codecs is modelled as the identity. -/
def ArrayV3Metadata.initFromPy (shv dtv cgv ckev fvv cdv attv dimv : PyVal) :
    Except PyErr ArrayV3Metadata := do
  let shape ← parse_shapelike shv
  let dt ← parse_dtype dtv
  let cg ← RegularChunkGrid.from_dict cgv
  let cke ← ChunkKeyEncoding.from_dict ckev
  let dims ← parse_dimension_names dimv
  let fv ← parse_fill_value fvv dt
  let atts ← parse_attributes attv
  let codecs ← parse_codecs cdv
  let _ ← validate_metadata shape cg.chunk_shape dims
  .ok ⟨shape, dt, cg, cke, fv, codecs, atts, dims⟩

/-- `ArrayV3Metadata.from_dict` (v3.py lines 236-253): pop and check
`zarr_format` and `node_type`, check that `data_type` is a valid `DataType`
value, normalize missing `dimension_names` and `attributes` to None, then
call the constructor with the remaining entries as keyword arguments (a
missing or unexpected keyword raises TypeError). -/
def ArrayV3Metadata.from_dict (data : PyObj) : Except PyErr ArrayV3Metadata :=
  match data.pop? ("zarr_format") with
  | Option.none => .error (.keyError ("zarr_format"))
  | some (zf, d1) => do
    let _ ← parse_zarr_format zf
    match d1.pop? ("node_type") with
    | Option.none => .error (.keyError ("node_type"))
    | some (nt, d2) => do
      let _ ← parse_node_type_array nt
      match d2.lookup? ("data_type") with
      | Option.none => .error (.keyError ("data_type"))
      | some dtv =>
        let dtOk : Bool :=
          match dtv with
          | .str s => (DataType.ofName s).isSome
          | _ => false
        if dtOk then
          let (dimv, d3) := d2.popOr ("dimension_names") .none
          let (attv, d4) := d3.popOr ("attributes") .none
          match d4.pop? ("shape") with
          | Option.none => .error (.typeError ("missing argument: shape"))
          | some (shv, r1) =>
            match r1.pop? ("data_type") with
            | Option.none => .error (.typeError ("missing argument: data_type"))
            | some (dtv2, r2) =>
              match r2.pop? ("chunk_grid") with
              | Option.none => .error (.typeError ("missing argument: chunk_grid"))
              | some (cgv, r3) =>
                match r3.pop? ("chunk_key_encoding") with
                | Option.none => .error (.typeError ("missing argument: chunk_key_encoding"))
                | some (ckev, r4) =>
                  match r4.pop? ("fill_value") with
                  | Option.none => .error (.typeError ("missing argument: fill_value"))
                  | some (fvv, r5) =>
                    match r5.pop? ("codecs") with
                    | Option.none => .error (.typeError ("missing argument: codecs"))
                    | some (cdv, r6) =>
                      if r6 = .nil then
                        ArrayV3Metadata.initFromPy shv dtv2 cgv ckev fvv cdv attv dimv
                      else .error (.typeError ("unexpected keyword argument"))
        else .error (.valueError ("is not a valid DataType"))

/-- The document produced by `to_buffer_dict` (v3.py lines 232-234) and read
back by the JSON parser: `_replace_special_floats` over `to_dict`, then the
encoder (`json.dumps` with `V3JsonEncoder`) composed with re-parsing. -/
def ArrayV3Metadata.serializedDoc (m : ArrayV3Metadata) : PyObj :=
  jsonEncodeObj (replaceSpecialFloatsObj m.to_dict)

/-- `update_shape` (v3.py lines 267-268): `replace(self, shape=shape)`
re-invokes the dataclass constructor on the existing field values with the
new shape, which re-parses the shape and the fill value and re-runs
`_validate_metadata` (`np.dtype`, `ChunkGrid.from_dict`,
`ChunkKeyEncoding.from_dict`, `parse_dimension_names`, `parse_attributes`
and `parse_codecs` are the identity on already-parsed values). -/
def ArrayV3Metadata.update_shape (m : ArrayV3Metadata) (shape : List ℤ) :
    Except PyErr ArrayV3Metadata := do
  let shape2 ← parse_shapelike_core shape
  let fv ← parse_fill_value (m.fill_value.toPy m.data_type) m.data_type
  let _ ← validate_metadata shape2 m.chunk_grid.chunk_shape m.dimension_names
  .ok ⟨shape2, m.data_type, m.chunk_grid, m.chunk_key_encoding, fv, m.codecs,
    m.attributes, m.dimension_names⟩

end Zarr

namespace Zarr

mutual

/-- A pure JSON value: no NaN/Inf floats, no numpy-only or complex scalars -- 
what a strict JSON document can hold. -/
def jsonPure : PyVal → Bool
  | .pyFloat (.finite _) => true
  | .pyFloat _ => false
  | .npHalf _ => false
  | .complexVal _ _ => false
  | .arr xs => jsonPureList xs
  | .obj kvs => jsonPureObj kvs
  | _ => true

/-- `jsonPure` over a list. -/
def jsonPureList : PyList → Bool
  | .nil => true
  | .cons v tl => jsonPure v && jsonPureList tl

/-- `jsonPure` over the values of a dict. -/
def jsonPureObj : PyObj → Bool
  | .nil => true
  | .cons _ v tl => jsonPure v && jsonPureObj tl

end

mutual

theorem specialFloatsSpec_pure : ∀ v : PyVal, jsonPure v = true → specialFloatsSpec v = v
  | .none, _ => rfl
  | .bool _, _ => rfl
  | .int _, _ => rfl
  | .pyFloat (.finite _), _ => rfl
  | .pyFloat .nan, h => by simp [jsonPure] at h
  | .pyFloat .pinf, h => by simp [jsonPure] at h
  | .pyFloat .ninf, h => by simp [jsonPure] at h
  | .npHalf f, h => by simp [jsonPure] at h
  | .complexVal _ _, h => by simp [jsonPure] at h
  | .str _, _ => rfl
  | .arr xs, h => by
      simp only [specialFloatsSpec]
      exact congrArg PyVal.arr (specialFloatsSpecList_pure xs (by simpa [jsonPure] using h))
  | .obj kvs, h => by
      simp only [specialFloatsSpec]
      exact congrArg PyVal.obj (specialFloatsSpecObj_pure kvs (by simpa [jsonPure] using h))

theorem specialFloatsSpecList_pure : ∀ xs : PyList, jsonPureList xs = true →
    specialFloatsSpecList xs = xs
  | .nil, _ => rfl
  | .cons v tl, h => by
      simp only [jsonPureList, Bool.and_eq_true] at h
      simp only [specialFloatsSpecList]
      rw [specialFloatsSpec_pure v h.1, specialFloatsSpecList_pure tl h.2]

theorem specialFloatsSpecObj_pure : ∀ kvs : PyObj, jsonPureObj kvs = true →
    specialFloatsSpecObj kvs = kvs
  | .nil, _ => rfl
  | .cons k v tl, h => by
      simp only [jsonPureObj, Bool.and_eq_true] at h
      simp only [specialFloatsSpecObj]
      rw [specialFloatsSpec_pure v h.1, specialFloatsSpecObj_pure tl h.2]

end

/-- The fill value is a scalar of the metadata data type (for integer data
types: in range). -/
def ValidFill (d : DataType) : Scalar → Bool
  | .bool _ => d = .bool
  | .int n => (d.kind = 'i' || d.kind = 'u') && d.inRange n
  | .float _ => d.kind = 'f'
  | .complex _ _ => d.kind = 'c'

/-- Each codec element is a named-configuration dict holding pure JSON. -/
def validCodecs : PyList → Bool
  | .nil => true
  | .cons c tl => codecOk c && jsonPure c && validCodecs tl

/-- A well-formed `ArrayV3Metadata` value: the invariants the constructor
establishes (grid and dimension names match the shape dimensions, the fill
value is a scalar of the data type, the chunk key encoding is one of the
two known encodings) together with the attributes and codec configurations
being strict-JSON values. -/
def ArrayV3Metadata.valid (m : ArrayV3Metadata) : Bool :=
  m.chunk_grid.chunk_shape.length = m.shape.length &&
  m.chunk_grid.chunk_shape.all (fun c => 1 ≤ c) &&
  ValidFill m.data_type m.fill_value &&
  (m.chunk_key_encoding.name = "default" || m.chunk_key_encoding.name = "v2") &&
  (m.chunk_key_encoding.separator = "/" || m.chunk_key_encoding.separator = ".") &&
  validCodecs m.codecs &&
  jsonPureObj m.attributes &&
  (match m.dimension_names with
   | Option.none => true
   | some ds => ds.length = m.shape.length)

end Zarr

namespace Zarr

theorem except_bind_ok {α β : Type} (a : α) (f : α → Except PyErr β) :
    (Except.ok a >>= f) = f a := rfl

theorem except_bind_err {α β : Type} (e : PyErr) (f : α → Except PyErr β) :
    ((Except.error e : Except PyErr α) >>= f) = .error e := rfl

theorem except_map_ok {α β : Type} (a : α) (f : α → β) :
    (Except.ok a : Except PyErr α).map f = .ok (f a) := rfl

theorem except_map_err {α β : Type} (e : PyErr) (f : α → β) :
    (Except.error e : Except PyErr α).map f = .error e := rfl

/-- A list of naturals as a list of integers. -/
def intCasts : List ℕ → List ℤ
  | [] => []
  | n :: tl => (n : ℤ) :: intCasts tl

theorem specList_natList (l : List ℕ) :
    specialFloatsSpecList (natListToPy l) = natListToPy l := by
  induction l with
  | nil => rfl
  | cons n tl ih => simp [natListToPy, specialFloatsSpecList, specialFloatsSpec, ih]

theorem specList_dims (ds : List (Option String)) :
    specialFloatsSpecList (dimsToPy ds) = dimsToPy ds := by
  induction ds with
  | nil => rfl
  | cons d tl ih => cases d <;> simp [dimsToPy, specialFloatsSpecList, specialFloatsSpec, ih]

theorem spec_grid_to_dict (g : RegularChunkGrid) :
    specialFloatsSpec g.to_dict = g.to_dict := by
  simp [RegularChunkGrid.to_dict, specialFloatsSpec, specialFloatsSpecObj,
    specList_natList]

theorem spec_cke_to_dict (e : ChunkKeyEncoding) :
    specialFloatsSpec e.to_dict = e.to_dict := by
  simp [ChunkKeyEncoding.to_dict, specialFloatsSpec, specialFloatsSpecObj]

theorem intsOf_natList (l : List ℕ) :
    intsOfPyList (natListToPy l) = .ok (intCasts l) := by
  induction l with
  | nil => rfl
  | cons n tl ih =>
      simp only [natListToPy, intsOfPyList]
      rw [ih]
      rfl

theorem shapelike_core_natList (l : List ℕ) :
    parse_shapelike_core (intCasts l) = .ok l := by
  induction l with
  | nil => rfl
  | cons n tl ih =>
      simp only [intCasts, parse_shapelike_core]
      rw [dif_pos (by omega : (0 : ℤ) ≤ (n : ℤ))]
      rw [ih]
      rfl

theorem parse_shapelike_roundtrip (l : List ℕ) :
    parse_shapelike (.arr (natListToPy l)) = .ok l := by
  simp only [parse_shapelike]
  rw [intsOf_natList, except_bind_ok]
  exact shapelike_core_natList l

theorem chunkshape_core_natList (l : List ℕ) (h : l.all (fun c => 1 ≤ c) = true) :
    parse_chunkshape_core (intCasts l) = .ok l := by
  induction l with
  | nil => rfl
  | cons n tl ih =>
      simp only [List.all_cons, Bool.and_eq_true, decide_eq_true_eq] at h
      simp only [intCasts, parse_chunkshape_core]
      have h1 : (1 : ℤ) ≤ (n : ℤ) := by exact_mod_cast h.1
      rw [dif_pos h1]
      rw [ih h.2]
      rfl

theorem grid_from_to (g : RegularChunkGrid)
    (h : g.chunk_shape.all (fun c => 1 ≤ c) = true) :
    RegularChunkGrid.from_dict g.to_dict = .ok g := by
  simp only [RegularChunkGrid.from_dict, RegularChunkGrid.to_dict]
  simp [PyObj.lookup?]
  rw [intsOf_natList, except_bind_ok, chunkshape_core_natList g.chunk_shape h,
    except_bind_ok]

theorem cke_from_to (e : ChunkKeyEncoding)
    (hn : e.name = "default" ∨ e.name = "v2")
    (hs : e.separator = "/" ∨ e.separator = ".") :
    ChunkKeyEncoding.from_dict e.to_dict = .ok e := by
  simp [ChunkKeyEncoding.from_dict, ChunkKeyEncoding.to_dict, PyObj.lookup?, hn, hs]

theorem dimsOf_dimsToPy : ∀ ds : List (Option String),
    dimsOfPyList (dimsToPy ds) = .ok ds
  | [] => rfl
  | some s :: tl => by
      simp only [dimsToPy, dimsOfPyList]
      rw [dimsOf_dimsToPy tl]
      rfl
  | Option.none :: tl => by
      simp only [dimsToPy, dimsOfPyList]
      rw [dimsOf_dimsToPy tl]
      rfl

theorem dims_roundtrip (ds : List (Option String)) :
    parse_dimension_names (.arr (dimsToPy ds)) = .ok (some ds) := by
  simp only [parse_dimension_names]
  rw [dimsOf_dimsToPy]
  rfl

theorem isclose_self (f : FloatVal) : f.isclose f = true := by
  cases f <;> simp [FloatVal.isclose]
  case finite q => positivity

theorem codecs_spec_id : ∀ cs : PyList, validCodecs cs = true →
    specialFloatsSpecList cs = cs
  | .nil, _ => rfl
  | .cons c tl, h => by
      simp only [validCodecs, Bool.and_eq_true] at h
      simp only [specialFloatsSpecList]
      rw [specialFloatsSpec_pure c h.1.2, codecs_spec_id tl h.2]

theorem codecs_roundtrip : ∀ cs : PyList, validCodecs cs = true →
    codecsOfList cs = .ok cs
  | .nil, _ => rfl
  | .cons c tl, h => by
      simp only [validCodecs, Bool.and_eq_true] at h
      simp only [codecsOfList, h.1.1, if_true]
      rw [codecs_roundtrip tl h.2]
      rfl

end Zarr

namespace Zarr

/-- The fill value as it appears in the serialized document: NaN/Inf floats
as the special strings, complex as the two-element array. -/
def serializedFill : Scalar → PyVal
  | .bool b => .bool b
  | .int n => .int n
  | .float (.finite q) => .pyFloat (.finite q)
  | .float .nan => .str ("NaN")
  | .float .pinf => .str ("Infinity")
  | .float .ninf => .str ("-Infinity")
  | .complex re im => .arr (.cons (.pyFloat re) (.cons (.pyFloat im) .nil))

theorem spec_toPy (d : DataType) (s : Scalar) :
    specialFloatsSpec (s.toPy d) = serializedFill s := by
  cases s with
  | bool b => rfl
  | int n => rfl
  | float f =>
      by_cases hd : d = .float64 <;> cases f <;>
        simp [Scalar.toPy, hd, specialFloatsSpec, serializedFill]
  | complex re im => rfl

theorem parse_fill_value_pyFloat_floatd (d : DataType) (hk : d.kind = 'f')
    (f : FloatVal) : parse_fill_value (.pyFloat f) d = .ok (.float f) := by
  have hb : (d.kind = 'b') = False := by rw [hk]; simp
  simp [parse_fill_value, npCast, hb, hk, npCastFloat, pyEqStr, floatOfPy?,
    Scalar.floatPart, isclose_self]

theorem parse_fill_value_nan_str (d : DataType) (hk : d.kind = 'f') :
    parse_fill_value (.str ("NaN")) d = .ok (.float .nan) := by
  have hb : (d.kind = 'b') = False := by rw [hk]; simp
  simp [parse_fill_value, npCast, hb, hk, npCastFloat, strToFloat, pyEqStr,
    Scalar.isnan, FloatVal.isnan, except_map_ok]

theorem parse_fill_value_pinf_str (d : DataType) (hk : d.kind = 'f') :
    parse_fill_value (.str ("Infinity")) d = .ok (.float .pinf) := by
  have hb : (d.kind = 'b') = False := by rw [hk]; simp
  simp [parse_fill_value, npCast, hb, hk, npCastFloat, strToFloat, pyEqStr,
    Scalar.isnan, FloatVal.isnan, Scalar.isfinite, FloatVal.isfinite, except_map_ok]

theorem parse_fill_value_ninf_str (d : DataType) (hk : d.kind = 'f') :
    parse_fill_value (.str ("-Infinity")) d = .ok (.float .ninf) := by
  have hb : (d.kind = 'b') = False := by rw [hk]; simp
  simp [parse_fill_value, npCast, hb, hk, npCastFloat, strToFloat, pyEqStr,
    Scalar.isnan, FloatVal.isnan, Scalar.isfinite, FloatVal.isfinite, except_map_ok]

theorem parse_serialized_fill (d : DataType) (s : Scalar) (h : ValidFill d s = true) :
    parse_fill_value (serializedFill s) d = .ok s := by
  cases s with
  | bool b =>
      have hd : d = .bool := by simpa [ValidFill] using h
      subst hd
      exact parse_fill_value_bool_bool b
  | int n =>
      simp only [ValidFill, Bool.and_eq_true, Bool.or_eq_true, decide_eq_true_eq] at h
      rw [serializedFill, parse_fill_value_int_int d h.1 n, if_pos h.2]
  | float f =>
      have hk : d.kind = 'f' := by simpa [ValidFill] using h
      cases f
      case finite q => exact parse_fill_value_pyFloat_floatd d hk (.finite q)
      case nan => exact parse_fill_value_nan_str d hk
      case pinf => exact parse_fill_value_pinf_str d hk
      case ninf => exact parse_fill_value_ninf_str d hk
  | complex re im =>
      have hk : d.kind = 'c' := by simpa [ValidFill] using h
      have hd : d = .complex64 ∨ d = .complex128 := by
        cases d <;> simp [DataType.kind] at hk <;> simp
      simp [serializedFill, parse_fill_value, hd, complexOfPair, floatOfPy?]


theorem DataType.ofName_name (d : DataType) : DataType.ofName d.name = some d := by
  cases d <;> rfl

theorem parse_dtype_name (d : DataType) : parse_dtype (.str d.name) = .ok d := by
  simp [parse_dtype, DataType.ofName_name]

end Zarr

namespace Zarr

set_option maxHeartbeats 1600000

theorem spec_arr_eq (xs : PyList) :
    specialFloatsSpec (.arr xs) = .arr (specialFloatsSpecList xs) := rfl

theorem spec_obj_eq (kvs : PyObj) :
    specialFloatsSpec (.obj kvs) = .obj (specialFloatsSpecObj kvs) := rfl

theorem spec_str_eq (s : String) : specialFloatsSpec (.str s) = .str s := rfl

theorem spec_int_eq (n : ℤ) : specialFloatsSpec (.int n) = .int n := rfl

/-- C1: for every valid `ArrayV3Metadata` value, serializing it to its JSON
document (`to_dict` inside `to_buffer_dict`, with `_replace_special_floats`
and the `V3JsonEncoder`) and re-parsing that document with
`ArrayV3Metadata.from_dict` yields the metadata back exactly.  In this model
NaN is a distinguished value, so recovering the same value subsumes the
comparison of NaN fills by isnan. -/
theorem C1_metadata_roundtrip (m : ArrayV3Metadata) (h : m.valid = true) :
    ArrayV3Metadata.from_dict m.serializedDoc = .ok m := by
  simp only [ArrayV3Metadata.valid, Bool.and_eq_true] at h
  obtain ⟨⟨⟨⟨⟨⟨⟨h1, h2⟩, h3⟩, h4⟩, h5⟩, h6⟩, h7⟩, h8⟩ := h
  simp only [decide_eq_true_eq] at h1
  simp only [Bool.or_eq_true, decide_eq_true_eq] at h4 h5
  rw [ArrayV3Metadata.serializedDoc, jsonEncodeObj_replace_eq_spec]
  by_cases hattr : m.attributes = PyObj.nil
  · cases hdim : m.dimension_names with
    | none =>
        simp only [ArrayV3Metadata.to_dict, hattr, hdim, if_pos rfl, metaTailFields]
        simp only [specialFloatsSpecObj, spec_arr_eq, spec_obj_eq, spec_str_eq, spec_int_eq,
          specList_natList, spec_grid_to_dict, spec_cke_to_dict, spec_toPy]
        rw [codecs_spec_id m.codecs h6]
        simp [ArrayV3Metadata.from_dict, PyObj.pop?, PyObj.popOr, PyObj.lookup?,
          parse_zarr_format, parse_node_type_array, DataType.ofName_name,
          ArrayV3Metadata.initFromPy, parse_shapelike_roundtrip, parse_dtype_name,
          grid_from_to m.chunk_grid h2, cke_from_to m.chunk_key_encoding h4 h5,
          parse_dimension_names, parse_serialized_fill m.data_type m.fill_value h3,
          parse_attributes, parse_codecs, codecs_roundtrip m.codecs h6,
          except_bind_ok, validate_metadata, h1]
        rw [← hattr, ← hdim]
    | some ds =>
        simp only [hdim] at h8
        simp only [decide_eq_true_eq] at h8
        simp only [ArrayV3Metadata.to_dict, hattr, hdim, if_pos rfl, metaTailFields]
        simp only [specialFloatsSpecObj, spec_arr_eq, spec_obj_eq, spec_str_eq, spec_int_eq,
          specList_natList, specList_dims, spec_grid_to_dict, spec_cke_to_dict, spec_toPy]
        rw [codecs_spec_id m.codecs h6]
        simp [ArrayV3Metadata.from_dict, PyObj.pop?, PyObj.popOr, PyObj.lookup?,
          parse_zarr_format, parse_node_type_array, DataType.ofName_name,
          ArrayV3Metadata.initFromPy, parse_shapelike_roundtrip, parse_dtype_name,
          grid_from_to m.chunk_grid h2, cke_from_to m.chunk_key_encoding h4 h5,
          dims_roundtrip, parse_serialized_fill m.data_type m.fill_value h3,
          parse_attributes, parse_codecs, codecs_roundtrip m.codecs h6,
          except_bind_ok, validate_metadata, h1, h8]
        rw [← hattr, ← hdim]
  · cases hdim : m.dimension_names with
    | none =>
        simp only [ArrayV3Metadata.to_dict, hattr, hdim, if_neg hattr, metaTailFields]
        simp only [specialFloatsSpecObj, spec_arr_eq, spec_obj_eq, spec_str_eq, spec_int_eq,
          specList_natList, spec_grid_to_dict, spec_cke_to_dict, spec_toPy]
        rw [codecs_spec_id m.codecs h6, specialFloatsSpecObj_pure m.attributes h7]
        simp [ArrayV3Metadata.from_dict, PyObj.pop?, PyObj.popOr, PyObj.lookup?,
          parse_zarr_format, parse_node_type_array, DataType.ofName_name,
          ArrayV3Metadata.initFromPy, parse_shapelike_roundtrip, parse_dtype_name,
          grid_from_to m.chunk_grid h2, cke_from_to m.chunk_key_encoding h4 h5,
          parse_dimension_names, parse_serialized_fill m.data_type m.fill_value h3,
          parse_attributes, parse_codecs, codecs_roundtrip m.codecs h6,
          except_bind_ok, validate_metadata, h1]
        rw [← hdim]
    | some ds =>
        simp only [hdim] at h8
        simp only [decide_eq_true_eq] at h8
        simp only [ArrayV3Metadata.to_dict, hattr, hdim, if_neg hattr, metaTailFields]
        simp only [specialFloatsSpecObj, spec_arr_eq, spec_obj_eq, spec_str_eq, spec_int_eq,
          specList_natList, specList_dims, spec_grid_to_dict, spec_cke_to_dict, spec_toPy]
        rw [codecs_spec_id m.codecs h6, specialFloatsSpecObj_pure m.attributes h7]
        simp [ArrayV3Metadata.from_dict, PyObj.pop?, PyObj.popOr, PyObj.lookup?,
          parse_zarr_format, parse_node_type_array, DataType.ofName_name,
          ArrayV3Metadata.initFromPy, parse_shapelike_roundtrip, parse_dtype_name,
          grid_from_to m.chunk_grid h2, cke_from_to m.chunk_key_encoding h4 h5,
          dims_roundtrip, parse_serialized_fill m.data_type m.fill_value h3,
          parse_attributes, parse_codecs, codecs_roundtrip m.codecs h6,
          except_bind_ok, validate_metadata, h1, h8]
        rw [← hdim]

end Zarr

namespace Zarr

/-- A concrete metadata value: shape 20 x 3, float64, chunks 3 x 2, default
key encoding, NaN fill, a bytes codec, no attributes, no dimension names. -/
def sampleMeta : ArrayV3Metadata :=
  ⟨[20, 3], .float64, ⟨[3, 2]⟩, ⟨"default", "/"⟩, .float .nan,
    .cons (.obj (.cons ("name") (.str ("bytes")) .nil)) .nil, .nil, Option.none⟩

/-- Witness for C1: the concrete metadata value is valid and the round trip
through serialization and `from_dict` recovers it exactly, NaN fill
included. -/
theorem C1_metadata_roundtrip_witness :
    sampleMeta.valid = true ∧
    ArrayV3Metadata.from_dict sampleMeta.serializedDoc = .ok sampleMeta :=
  ⟨rfl, C1_metadata_roundtrip sampleMeta rfl⟩

/-- C5: in the serialized v3 metadata document, `dimension_names` is omitted
when it is None and `attributes` is omitted when it is empty. -/
theorem C5_empty_fields_omitted (m : ArrayV3Metadata) :
    (m.dimension_names = Option.none →
      m.to_dict.lookup? ("dimension_names") = Option.none) ∧
    (m.attributes = .nil → m.to_dict.lookup? ("attributes") = Option.none) := by
  constructor
  · intro hdim
    by_cases hattr : m.attributes = PyObj.nil <;>
      simp [ArrayV3Metadata.to_dict, hdim, hattr, PyObj.lookup?, metaTailFields]
  · intro hattr
    cases hdim : m.dimension_names <;>
      simp [ArrayV3Metadata.to_dict, hdim, hattr, PyObj.lookup?, metaTailFields]

/-- Witness for C5 at the concrete metadata value. -/
theorem C5_empty_fields_omitted_witness :
    sampleMeta.to_dict.lookup? ("dimension_names") = Option.none ∧
    sampleMeta.to_dict.lookup? ("attributes") = Option.none :=
  ⟨(C5_empty_fields_omitted sampleMeta).1 rfl, (C5_empty_fields_omitted sampleMeta).2 rfl⟩

end Zarr

namespace Zarr

theorem parse_fill_value_npHalf_floatd (d : DataType) (hk : d.kind = 'f')
    (f : FloatVal) : parse_fill_value (.npHalf f) d = .ok (.float f) := by
  have hb : (d.kind = 'b') = False := by rw [hk]; simp
  simp [parse_fill_value, npCast, hb, hk, npCastFloat, pyEqStr, floatOfPy?,
    Scalar.floatPart, isclose_self]

theorem FloatVal.pyBeq_self (f : FloatVal) (h : f.isnan = false) : f.pyBeq f = true := by
  cases f <;> simp_all [FloatVal.pyBeq, FloatVal.isnan]

/-- A complex scalar with a NaN component. -/
def complexNanFill : Scalar → Bool
  | .complex re im => re.isnan || im.isnan
  | _ => false

/-- Re-parsing an already-parsed fill value (as `dataclasses.replace` does
through the constructor) returns it unchanged, as long as it is not a
complex value with a NaN component. -/
theorem reparse_fill (d : DataType) (s : Scalar) (h : ValidFill d s = true)
    (hn : complexNanFill s = false) :
    parse_fill_value (s.toPy d) d = .ok s := by
  cases s with
  | bool b =>
      have hd : d = .bool := by simpa [ValidFill] using h
      subst hd
      exact parse_fill_value_bool_bool b
  | int n =>
      simp only [ValidFill, Bool.and_eq_true, Bool.or_eq_true, decide_eq_true_eq] at h
      show parse_fill_value (.int n) d = .ok (.int n)
      rw [parse_fill_value_int_int d h.1 n, if_pos h.2]
  | float f =>
      have hk : d.kind = 'f' := by simpa [ValidFill] using h
      by_cases hd : d = .float64
      · subst hd
        simp only [Scalar.toPy, if_pos rfl]
        exact parse_fill_value_pyFloat_floatd _ hk f
      · simp only [Scalar.toPy, if_neg hd]
        exact parse_fill_value_npHalf_floatd d hk f
  | complex re im =>
      have hk : d.kind = 'c' := by simpa [ValidFill] using h
      have hb : (d.kind = 'b') = False := by rw [hk]; simp
      have hf : (d.kind = 'f') = False := by rw [hk]; simp
      simp only [complexNanFill, Bool.or_eq_false_iff] at hn
      simp [Scalar.toPy, parse_fill_value, npCast, hb, hf, hk, npCastComplex,
        pyEqStr, pyEqScalar, floatOfPy?, FloatVal.pyBeq_self re hn.1,
        FloatVal.pyBeq_self im hn.2]

/-- Naturals of a list of non-negative integers. -/
def natsOfInts (l : List ℤ) : List ℕ := l.map Int.toNat

theorem shapelike_core_nonneg (l : List ℤ) (h : l.all (fun n => 0 ≤ n) = true) :
    parse_shapelike_core l = .ok (natsOfInts l) := by
  induction l with
  | nil => rfl
  | cons n tl ih =>
      simp only [List.all_cons, Bool.and_eq_true, decide_eq_true_eq] at h
      simp only [parse_shapelike_core, natsOfInts, List.map_cons]
      rw [dif_pos h.1, ih h.2]
      rfl

/-- C9 (amended): for every valid metadata value `m` whose fill value is not
a complex number with a NaN component, and every shape tuple of non-negative
integers with as many dimensions as `m`, `update_shape` returns new metadata
whose shape is the new shape and whose every other field equals the
corresponding field of `m` (values are immutable, so `m` itself is
unchanged). -/
theorem C9_update_shape_only_shape (m : ArrayV3Metadata) (s : List ℤ)
    (hv : m.valid = true)
    (hnan : complexNanFill m.fill_value = false)
    (hlen : s.length = m.shape.length)
    (hpos : s.all (fun n => 0 ≤ n) = true) :
    m.update_shape s =
      .ok ⟨natsOfInts s, m.data_type, m.chunk_grid, m.chunk_key_encoding,
        m.fill_value, m.codecs, m.attributes, m.dimension_names⟩ := by
  simp only [ArrayV3Metadata.valid, Bool.and_eq_true] at hv
  obtain ⟨⟨⟨⟨⟨⟨⟨h1, h2⟩, h3⟩, h4⟩, h5⟩, h6⟩, h7⟩, h8⟩ := hv
  simp only [decide_eq_true_eq] at h1
  simp only [ArrayV3Metadata.update_shape]
  rw [shapelike_core_nonneg s hpos, except_bind_ok,
    reparse_fill m.data_type m.fill_value h3 hnan, except_bind_ok]
  have hlen2 : (natsOfInts s).length = m.shape.length := by
    simpa [natsOfInts] using hlen
  cases hdim : m.dimension_names with
  | none => simp [validate_metadata, hdim, hlen2, h1, except_bind_ok]
  | some ds =>
      simp only [hdim, decide_eq_true_eq] at h8
      simp [validate_metadata, hdim, hlen2, h1, h8, except_bind_ok]

/-- A complex-fill metadata value with a NaN real component. -/
def cplxMeta : ArrayV3Metadata :=
  ⟨[4], .complex128, ⟨[2]⟩, ⟨"default", "/"⟩, .complex .nan (.finite 0),
    .cons (.obj (.cons ("name") (.str ("bytes")) .nil)) .nil, .nil, Option.none⟩

/-- `update_shape` raised an exception. -/
def updateShapeRaises (m : ArrayV3Metadata) (s : List ℤ) : Bool :=
  match m.update_shape s with
  | .error _ => true
  | .ok _ => false

/-- C9 counterexample: `update_shape` does not return a shape-updated copy
for every shape tuple -- it raises for a shape of mismatched dimensionality
and for a negative entry (the constructor re-validates), and raises even
for the unchanged shape when the fill value is a complex NaN (the re-parsed
fill fails the exact-equality check). -/
theorem C9_update_shape_counterexample :
    updateShapeRaises sampleMeta [5] = true ∧
    updateShapeRaises sampleMeta [-1, 3] = true ∧
    updateShapeRaises cplxMeta [4] = true := ⟨rfl, rfl, rfl⟩

/-- Witness for the amended C9 at a concrete input. -/
theorem C9_update_shape_only_shape_witness :
    sampleMeta.update_shape [10, 3] =
      .ok ⟨[10, 3], .float64, ⟨[3, 2]⟩, ⟨"default", "/"⟩, .float .nan,
        .cons (.obj (.cons ("name") (.str ("bytes")) .nil)) .nil, .nil, Option.none⟩ :=
  C9_update_shape_only_shape sampleMeta [10, 3] rfl rfl rfl rfl

end Zarr

namespace Zarr

/-- Python `str.title()` over the characters: every alphabetic run starts
with an uppercased character, the following letters are lowercased, and
non-letters pass through (ending the run).  The flag carries whether the
previous character was alphabetic. -/
def pyTitleAux : Bool → List Char → List Char
  | _, [] => []
  | prevAlpha, c :: cs =>
      (if c.isAlpha then (if prevAlpha then c.toLower else c.toUpper) else c) ::
        pyTitleAux c.isAlpha cs

/-- `camel_case` (config.py lines 78-79):
underscores become spaces, the words are title-cased, the spaces are
removed. -/
def camel_case (s : String) : String :=
  .mk ((pyTitleAux false (s.data.map (fun c => if c = '_' then ' ' else c))).filter
    (fun c => ¬c = ' '))

/-- The raised error is BadConfigError. -/
def isBadConfig : Except PyErr String → Bool
  | .error (.badConfigError _) => true
  | _ => false

/-- `Config.codec_pipeline_class` (config.py lines 28-47).  The registered
`CodecPipeline.__subclasses__()` are modelled by the list of their class
names; the configured `codec_pipeline.name` is the argument. -/
def codec_pipeline_class (subclasses : List String) (name : String) :
    Except PyErr String :=
  let name_camel_case := camel_case name
  let selected_pipelines :=
    subclasses.filter (fun p => p = name ∨ p = name_camel_case)
  match selected_pipelines with
  | [] => .error (.badConfigError ("No subclass of CodecPipeline found."))
  | [p] => .ok p
  | _ => .error (.badConfigError ("Multiple subclasses of CodecPipeline found."))

/-- C7: `codec_pipeline_class` returns the unique registered subclass whose
class name equals the configured name or its camel-cased form, raises
BadConfigError when no subclass matches either form, and raises
BadConfigError when more than one matches. -/
theorem C7_codec_pipeline_class (subclasses : List String) (name : String) :
    (∀ c, codec_pipeline_class subclasses name = .ok c ↔
      subclasses.filter (fun p => p = name ∨ p = camel_case name) = [c]) ∧
    (subclasses.filter (fun p => p = name ∨ p = camel_case name) = [] →
      isBadConfig (codec_pipeline_class subclasses name) = true) ∧
    (∀ c1 c2 rest,
      subclasses.filter (fun p => p = name ∨ p = camel_case name) = c1 :: c2 :: rest →
      isBadConfig (codec_pipeline_class subclasses name) = true) := by
  refine ⟨fun c => ?_, fun h => ?_, fun c1 c2 rest h => ?_⟩
  · simp only [codec_pipeline_class]
    cases hf : subclasses.filter (fun p => p = name ∨ p = camel_case name) with
    | nil => simp
    | cons p tl =>
        cases tl with
        | nil => simp [eq_comm]
        | cons q tl2 => simp
  · simp only [codec_pipeline_class, h, isBadConfig]
  · simp only [codec_pipeline_class, h, isBadConfig]

/-- Witness for C7: the default pipeline name in camel-cased form selects
the BatchedCodecPipeline class; an unknown name and a doubly-registered
name raise BadConfigError. -/
theorem C7_codec_pipeline_class_witness :
    codec_pipeline_class (["BatchedCodecPipeline"]) ("batched_codec_pipeline") =
      .ok ("BatchedCodecPipeline") ∧
    isBadConfig (codec_pipeline_class (["BatchedCodecPipeline"]) ("wrong_name")) = true ∧
    isBadConfig (codec_pipeline_class (["P", "P"]) ("P")) = true :=
  ⟨((C7_codec_pipeline_class (["BatchedCodecPipeline"])
      ("batched_codec_pipeline")).1 ("BatchedCodecPipeline")).mpr (by decide),
    (C7_codec_pipeline_class (["BatchedCodecPipeline"]) ("wrong_name")).2.1 (by decide),
    (C7_codec_pipeline_class (["P", "P"]) ("P")).2.2 ("P") ("P") [] (by decide)⟩

end Zarr

namespace Zarr

/-- Modelled from the spec: the defaults of the configuration module the v3
metadata encoder reads (`zarr.core.config` is not part of the sources; the
spec fixes the integer `json_indent` with default value 2). -/
def defaultCoreConfig : List (String × PyVal) := [("json_indent", .int 2)]

/-- `donfig.Config.get(key)`: the configured value, KeyError when the key
is absent. -/
def configGet (cfg : List (String × PyVal)) (key : String) : Except PyErr PyVal :=
  match cfg.find? (fun kv => kv.1 = key) with
  | some kv => .ok kv.2
  | Option.none => .error (.keyError key)

/-- `V3JsonEncoder.__init__` (v3.py lines 75-77):
`self.indent = kwargs.pop("indent", config.get("json_indent"))`.
`to_buffer_dict` (line 234) calls `json.dumps(d, cls=V3JsonEncoder)` with
no `indent` keyword, so every metadata document is encoded with the first
argument None. -/
def v3JsonEncoderIndent (kwargsIndent : Option PyVal)
    (cfg : List (String × PyVal)) : Except PyErr PyVal :=
  match kwargsIndent with
  | some v => .ok v
  | Option.none => configGet cfg ("json_indent")

/-- C6: the JSON encoder indents with the configuration key `json_indent`:
for every configuration, with no `indent` keyword (as in every metadata
document encode) the encoder indent is exactly `config.get("json_indent")`,
and under the default configuration the lookup succeeds and yields 2. -/
theorem C6_json_indent (cfg : List (String × PyVal)) :
    v3JsonEncoderIndent Option.none cfg = configGet cfg ("json_indent") ∧
    configGet defaultCoreConfig ("json_indent") = .ok (.int 2) ∧
    v3JsonEncoderIndent Option.none defaultCoreConfig = .ok (.int 2) :=
  ⟨rfl, rfl, rfl⟩

end Zarr

namespace Zarr

/-- The state of a v2 `Attributes` handle (attrs.py lines 29-36): the
backing store (keys mapped to their stored attribute documents, kept in
parsed form since `json_dumps` on write and `parse_metadata` on read are
inverse), the key, the read-only flag, the cache flag and the cached
dict. -/
structure Attributes where
  store : List (String × PyObj)
  key : String
  read_only : Bool
  cache : Bool
  cached : Option PyObj
deriving DecidableEq

/-- `Attributes._get_nosync` (attrs.py lines 38-45): the stored document
under the key; a missing key raises KeyError, which is caught and turned
into the empty dict, so absence is never an error. -/
def Attributes._get_nosync (a : Attributes) : PyObj :=
  match a.store.find? (fun kv => kv.1 = a.key) with
  | some kv => kv.2
  | Option.none => .nil

/-- `Attributes.asdict` (attrs.py lines 47-54): the cached dict when caching
is on and one is present; otherwise a store read, which fills the cache when
caching is on.  The call returns the dict and the possibly-updated handle. -/
def Attributes.asdict (a : Attributes) : PyObj × Attributes :=
  if a.cache ∧ ¬a.cached = Option.none then (a.cached.getD .nil, a)
  else
    let d := a._get_nosync
    (d, if a.cache then { a with cached := some d } else a)

/-- Number of entries of a dict. -/
def PyObj.length : PyObj → ℕ
  | .nil => 0
  | .cons _ _ tl => tl.length + 1

/-- The keys of a dict, in order. -/
def PyObj.keys : PyObj → List String
  | .nil => []
  | .cons k _ tl => k :: tl.keys

/-- `Attributes.__len__` (attrs.py lines 154-155): `len(self.asdict())`. -/
def Attributes.lenA (a : Attributes) : ℕ × Attributes :=
  let r := a.asdict
  (r.1.length, r.2)

/-- `Attributes.__contains__` (attrs.py lines 61-62): `x in self.asdict()`. -/
def Attributes.containsA (a : Attributes) (x : String) : Bool × Attributes :=
  let r := a.asdict
  ((r.1.lookup? x).isSome, r.2)

/-- `Attributes.__iter__` (attrs.py lines 151-152): iteration over the keys
of `self.asdict()`. -/
def Attributes.iterA (a : Attributes) : List String × Attributes :=
  let r := a.asdict
  (r.1.keys, r.2)

/-- `dict[item] = value` on the ordered dict. -/
def PyObj.set : PyObj → String → PyVal → PyObj
  | .nil, k, v => .cons k v .nil
  | .cons k0 v0 tl, k, v =>
      if k0 = k then .cons k v tl else .cons k0 v0 (tl.set k v)

/-- `del dict[item]`: the dict without the entry, or nothing when the key is
absent (Python raises KeyError). -/
def PyObj.del? : PyObj → String → Option PyObj
  | .nil, _ => Option.none
  | .cons k0 v0 tl, k =>
      if k0 = k then some tl
      else (tl.del? k).map (fun r => .cons k0 v0 r)

/-- `dict.update(other)`: set every entry of the other dict in order. -/
def PyObj.updateWith (d : PyObj) : PyObj → PyObj
  | .nil => d
  | .cons k v tl => (d.set k v).updateWith tl

/-- `store[key] = bytes` on the backing store. -/
def storeSet : List (String × PyObj) → String → PyObj → List (String × PyObj)
  | [], k, d => [(k, d)]
  | kv :: tl, k, d => if kv.1 = k then (k, d) :: tl else kv :: storeSet tl k d

/-- `Attributes._put_nosync` (attrs.py lines 111-131): write the document
under the key and refresh the cache when caching is on (the modelled dicts
are always string-keyed, so the key-type warning path is not taken). -/
def Attributes._put_nosync (a : Attributes) (d : PyObj) : Attributes :=
  { a with store := storeSet a.store a.key d,
           cached := if a.cache then some d else a.cached }

/-- `Attributes._write_op` (attrs.py lines 67-77): the guard raises
PermissionError on a read-only handle before the operation runs (no
synchronizer is modelled; with none the operation is called directly). -/
def Attributes.writeOp (a : Attributes)
    (f : Attributes → Option PyErr × Attributes) : Option PyErr × Attributes :=
  if a.read_only then (some (.permissionError ("attributes are read-only")), a)
  else f a

/-- `Attributes.__setitem__` (attrs.py lines 79-91). -/
def Attributes.setitem (a : Attributes) (item : String) (value : PyVal) :
    Option PyErr × Attributes :=
  a.writeOp (fun s => (Option.none, s._put_nosync (s._get_nosync.set item value)))

/-- `Attributes.__delitem__` (attrs.py lines 93-104): loading the data and
deleting the entry happens before the put, so a missing key raises KeyError
with nothing written. -/
def Attributes.delitem (a : Attributes) (item : String) :
    Option PyErr × Attributes :=
  a.writeOp (fun s =>
    match s._get_nosync.del? item with
    | some d => (Option.none, s._put_nosync d)
    | Option.none => (some (.keyError item), s))

/-- `Attributes.put` (attrs.py lines 106-109). -/
def Attributes.put (a : Attributes) (d : PyObj) : Option PyErr × Attributes :=
  a.writeOp (fun s => (Option.none, s._put_nosync d))

/-- `Attributes.update` (attrs.py lines 134-146). -/
def Attributes.update (a : Attributes) (kvs : PyObj) :
    Option PyErr × Attributes :=
  a.writeOp (fun s => (Option.none, s._put_nosync (s._get_nosync.updateWith kvs)))

/-- C8: on a read-only handle every mutating operation raises
PermissionError, and the handle state -- the backing store (hence the
stored entry under the attributes key) and the cached dict -- is unchanged
by the failed call. -/
theorem C8_read_only_mutation (a : Attributes) (h : a.read_only = true)
    (item : String) (value : PyVal) (d kvs : PyObj) :
    a.setitem item value = (some (.permissionError ("attributes are read-only")), a) ∧
    a.delitem item = (some (.permissionError ("attributes are read-only")), a) ∧
    a.put d = (some (.permissionError ("attributes are read-only")), a) ∧
    a.update kvs = (some (.permissionError ("attributes are read-only")), a) := by
  refine ⟨?_, ?_, ?_, ?_⟩ <;>
    simp [Attributes.setitem, Attributes.delitem, Attributes.put, Attributes.update,
      Attributes.writeOp, h]

/-- Witness for C8 at a concrete read-only handle. -/
theorem C8_read_only_mutation_witness :
    let a : Attributes := ⟨[(".zattrs", .cons ("k") (.int 1) .nil)], ".zattrs", true, true,
      Option.none⟩
    a.setitem ("x") (.int 2) = (some (.permissionError ("attributes are read-only")), a) ∧
    a.delitem ("k") = (some (.permissionError ("attributes are read-only")), a) ∧
    a.put .nil = (some (.permissionError ("attributes are read-only")), a) ∧
    a.update .nil = (some (.permissionError ("attributes are read-only")), a) :=
  C8_read_only_mutation _ rfl ("x") (.int 2) .nil .nil

/-- C10: for every handle whose key is absent from the backing store (and
whose cache, if filled, reflects the store, as every handle constructed
against the current store satisfies -- `__init__` starts with an empty
cache), every read operation behaves as an empty mapping and none is an
error: `asdict` returns the empty dict, `__len__` is 0, iteration yields no
keys, and `__contains__` is false for every key.  The read operations are
total by construction: `_get_nosync` catches the KeyError of the missing
key. -/
theorem C10_absent_key_reads_empty (a : Attributes)
    (habs : a.store.find? (fun kv => kv.1 = a.key) = Option.none)
    (hc : a.cached = Option.none ∨ a.cached = some a._get_nosync) :
    (a.asdict).1 = .nil ∧ (a.lenA).1 = 0 ∧ (a.iterA).1 = [] ∧
    (∀ x, (a.containsA x).1 = false) := by
  have hget : a._get_nosync = .nil := by
    simp [Attributes._get_nosync, habs]
  have hd : (a.asdict).1 = .nil := by
    rcases hc with hc | hc
    · simp [Attributes.asdict, hc, hget]
    · by_cases hcache : a.cache <;>
        simp [Attributes.asdict, hc, hget, hcache]
  refine ⟨hd, ?_, ?_, fun x => ?_⟩ <;>
    simp [Attributes.lenA, Attributes.iterA, Attributes.containsA, hd,
      PyObj.length, PyObj.keys, PyObj.lookup?]

/-- Witness for C10 at a concrete fresh handle over a store without the
attributes key. -/
theorem C10_absent_key_reads_empty_witness :
    let a : Attributes := ⟨[("other", .nil)], ".zattrs", false, true, Option.none⟩
    (a.asdict).1 = .nil ∧ (a.lenA).1 = 0 ∧ (a.iterA).1 = [] ∧
    ((a.containsA ("k")).1 = false) := by
  have h := C10_absent_key_reads_empty
    ⟨[("other", .nil)], ".zattrs", false, true, Option.none⟩ (by decide) (Or.inl rfl)
  exact ⟨h.1, h.2.1, h.2.2.1, h.2.2.2 ("k")⟩

end Zarr

namespace Zarr

/-- Little-endian encoding of an unsigned 64-bit integer as 8 bytes. -/
def u64le (n : ℕ) : List ℕ := (List.range 8).map (fun i => n / 256 ^ i % 256)

/-- The raw shard index table: for each inner chunk in row-major order, the
(offset, length) pair as two little-endian u64 (spec section on the shard
binary format). -/
def shardIndexBytes : List (ℕ × ℕ) → List ℕ
  | [] => []
  | e :: tl => u64le e.1 ++ u64le e.2 ++ shardIndexBytes tl

/-- Modelled from the spec: the index entries for the inner chunks in
row-major order -- present chunks are placed back-to-back from offset 0, an
absent chunk gets the 2^64-1 sentinel pair (the sharding implementation is
not part of the sources; only its observable format is specified). -/
def shardEntries : ℕ → List (Option (List ℕ)) → List (ℕ × ℕ)
  | _, [] => []
  | off, Option.none :: rest => (2 ^ 64 - 1, 2 ^ 64 - 1) :: shardEntries off rest
  | off, some b :: rest => (off, b.length) :: shardEntries (off + b.length) rest

/-- Modelled from the spec: the encoded inner chunks back-to-back. -/
def shardBody : List (Option (List ℕ)) → List ℕ
  | [] => []
  | Option.none :: rest => shardBody rest
  | some b :: rest => b ++ shardBody rest

/-- Modelled from the spec: the on-disk shard object with an end-located
index and no index codec -- the concatenated encoded inner chunks followed
by the raw index table. -/
def buildShardEnd (chunks : List (Option (List ℕ))) : List ℕ :=
  shardBody chunks ++ shardIndexBytes (shardEntries 0 chunks)

/-- One little-endian u64 from its bytes (`int.from_bytes(-, "little")`). -/
def fromLE : List ℕ → ℕ
  | [] => 0
  | b :: tl => b + 256 * fromLE tl

/-- Interpret a byte string as `n` (offset, length) pairs of little-endian
u64, as the test does (chunking_test.py lines 46-48). -/
def readPairs : ℕ → List ℕ → List (ℕ × ℕ)
  | 0, _ => []
  | n + 1, bs =>
      (fromLE (bs.take 8), fromLE ((bs.drop 8).take 8)) :: readPairs n (bs.drop 16)

/-- Scenario 1 (chunking_test.py): each inner chunk is 3 x 2 float64 values
with no compressor, so its encoded byte length is fixed. -/
def scenario1EncodedChunkLength : ℕ := 3 * 2 * DataType.float64.byte_count

/-- The write rectangles of scenario 1 as (row0, row1, col0, col1)
half-open ranges: `z[:10,:]=42; z[15,1]=389; z[19,2]=1; z[0,1]=-4.2`. -/
def scenario1Writes : List (ℕ × ℕ × ℕ × ℕ) :=
  [(0, 10, 0, 3), (15, 16, 1, 2), (19, 20, 2, 3), (0, 1, 1, 2)]

/-- Chunk (i, j) of the 3 x 2 chunk grid intersects a write rectangle. -/
def chunkTouched (i j : ℕ) : Bool :=
  scenario1Writes.any (fun w =>
    w.1 < 3 * i + 3 ∧ 3 * i < w.2.1 ∧ w.2.2.1 < 2 * j + 2 ∧ 2 * j < w.2.2.2)

/-- The chunk coordinates of the 7 x 2 chunk grid of shape (20, 3) with
chunks (3, 2), in row-major order. -/
def allScenario1Chunks : List (ℕ × ℕ) :=
  ((List.range 7).map (fun i => (List.range 2).map (fun j => (i, j)))).join

/-- The chunks materialized by the writes of scenario 1. -/
def scenario1WrittenChunks : List (ℕ × ℕ) :=
  allScenario1Chunks.filter (fun p => chunkTouched p.1 p.2)

/-- The inner chunks of shard "0.0" (shards of 2 x 2 chunks), in row-major
order over the inner grid. -/
def shard00InnerChunks : List (ℕ × ℕ) := [(0, 0), (0, 1), (1, 0), (1, 1)]

/-- The stored shard object "0.0" of scenario 1, for the four encoded inner
chunk byte strings. -/
def scenario1Shard00 (b00 b01 b10 b11 : List ℕ) : List ℕ :=
  buildShardEnd [some b00, some b01, some b10, some b11]

/-- C4: in scenario 1 every inner chunk of shard "0.0" is written (so the
shard holds four present chunks of 48 bytes each), and the stored shard
object carries an end-located raw index table occupying exactly its final
2*4*8 = 64 bytes whose four (offset, length) little-endian u64 pairs equal
[(0,48), (48,48), (96,48), (144,48)]. -/
theorem C4_scenario1_shard_index (b00 b01 b10 b11 : List ℕ)
    (h00 : b00.length = scenario1EncodedChunkLength)
    (h01 : b01.length = scenario1EncodedChunkLength)
    (h10 : b10.length = scenario1EncodedChunkLength)
    (h11 : b11.length = scenario1EncodedChunkLength) :
    (shard00InnerChunks.all (fun p => scenario1WrittenChunks.contains p) = true) ∧
    (scenario1WrittenChunks =
      [(0, 0), (0, 1), (1, 0), (1, 1), (2, 0), (2, 1), (3, 0), (3, 1), (5, 0), (6, 1)]) ∧
    (shardEntries 0 [some b00, some b01, some b10, some b11] =
      [(0, 48), (48, 48), (96, 48), (144, 48)]) ∧
    ((shardIndexBytes (shardEntries 0 [some b00, some b01, some b10, some b11])).length =
      2 * 4 * 8) ∧
    ((scenario1Shard00 b00 b01 b10 b11).length = 4 * 48 + 2 * 4 * 8) ∧
    ((scenario1Shard00 b00 b01 b10 b11).drop
        ((scenario1Shard00 b00 b01 b10 b11).length - 2 * 4 * 8) =
      shardIndexBytes [(0, 48), (48, 48), (96, 48), (144, 48)]) ∧
    (readPairs 4
        ((scenario1Shard00 b00 b01 b10 b11).drop
          ((scenario1Shard00 b00 b01 b10 b11).length - 2 * 4 * 8)) =
      [(0, 48), (48, 48), (96, 48), (144, 48)]) := by
  have hl : scenario1EncodedChunkLength = 48 := by decide
  rw [hl] at h00 h01 h10 h11
  have hent : shardEntries 0 [some b00, some b01, some b10, some b11] =
      [(0, 48), (48, 48), (96, 48), (144, 48)] := by
    simp [shardEntries, h00, h01, h10, h11]
  have hidxlen : (shardIndexBytes [((0:ℕ), (48:ℕ)), (48, 48), (96, 48), (144, 48)]).length =
      2 * 4 * 8 := by decide
  have hbodylen : (shardBody [some b00, some b01, some b10, some b11]).length = 192 := by
    simp [shardBody, h00, h01, h10, h11]
  have hshard : scenario1Shard00 b00 b01 b10 b11 =
      shardBody [some b00, some b01, some b10, some b11] ++
        shardIndexBytes [((0:ℕ), (48:ℕ)), (48, 48), (96, 48), (144, 48)] := by
    rw [scenario1Shard00, buildShardEnd, hent]
  have hlen : (scenario1Shard00 b00 b01 b10 b11).length = 4 * 48 + 2 * 4 * 8 := by
    rw [hshard]
    simp [hbodylen, hidxlen]
  have hdrop : (scenario1Shard00 b00 b01 b10 b11).drop
      ((scenario1Shard00 b00 b01 b10 b11).length - 2 * 4 * 8) =
      shardIndexBytes [((0:ℕ), (48:ℕ)), (48, 48), (96, 48), (144, 48)] := by
    rw [hlen, hshard]
    have : (4 * 48 + 2 * 4 * 8 - 2 * 4 * 8) =
        (shardBody [some b00, some b01, some b10, some b11]).length := by
      rw [hbodylen]
    rw [this, List.drop_left]
  refine ⟨by decide, by decide, hent, by rw [hent]; exact hidxlen, hlen, hdrop, ?_⟩
  rw [hdrop]
  decide

/-- Witness for C4 with concrete 48-byte chunk contents. -/
theorem C4_scenario1_shard_index_witness :
    ((List.replicate 48 0 : List ℕ).length = scenario1EncodedChunkLength) ∧
    readPairs 4
        ((scenario1Shard00 (List.replicate 48 0) (List.replicate 48 0)
            (List.replicate 48 0) (List.replicate 48 0)).drop
          ((scenario1Shard00 (List.replicate 48 0) (List.replicate 48 0)
              (List.replicate 48 0) (List.replicate 48 0)).length - 2 * 4 * 8)) =
      [(0, 48), (48, 48), (96, 48), (144, 48)] :=
  ⟨by decide,
    (C4_scenario1_shard_index (List.replicate 48 0) (List.replicate 48 0)
        (List.replicate 48 0) (List.replicate 48 0)
        (by decide) (by decide) (by decide) (by decide)).2.2.2.2.2.2⟩

end Zarr
